import Mathlib

/-! Verification development for the SLML v0.1 canonical validator
(src/slml_validator.py) and the release hash manifest format
(src/tools/hash_release.py).

Modelling conventions:
- Python values are embedded as the inductive `PyVal` (None, bool, int, float,
  str, list, dict).  Python floats are modelled as exact rationals, so the
  validator's arithmetic (sums, means, the ratio and the tolerance
  comparisons) is interpreted over exact numbers.
- Python dicts are association lists over `PyVal` keys; lookup compares keys
  with Python `==` semantics (`pyEq`).  Dict-vs-dict `==` is modelled as
  entry-list equality; the validator never applies `==` to two dicts (all of
  its equality sites involve strings, numbers or sets of hashable values), so
  that choice is inert.
- Fallible operations return `Except PyErr`; an `Except.error` models a Python
  exception escaping the operation (TypeError on unhashable values or bad
  subscripts, KeyError on missing keys, AttributeError on calling `.get` on a
  non-dict).
-/

set_option maxHeartbeats 1000000

namespace SLML

/-- Kinds of Python runtime exceptions the embedded operations can raise. -/
inductive PyErr : Type where
  | typeErr : PyErr
  | keyErr : PyErr
  | attrErr : PyErr
  deriving DecidableEq

mutual
/-- A Python value, as decoded from JSON/TOML/YAML: None, bool, int, float,
str, list or dict.  Floats are exact rationals. -/
inductive PyVal : Type where
  | pnone : PyVal
  | pbool : Bool → PyVal
  | pint : Int → PyVal
  | pfloat : ℚ → PyVal
  | pstr : String → PyVal
  | plist : PyList → PyVal
  | pdict : PyDict → PyVal

/-- Spine of an embedded Python list. -/
inductive PyList : Type where
  | lnil : PyList
  | lcons : PyVal → PyList → PyList

/-- Spine of an embedded Python dict (ordered key/value entries). -/
inductive PyDict : Type where
  | dnil : PyDict
  | dcons : PyVal → PyVal → PyDict → PyDict
end

/-- The entries of an embedded list, as a Lean list. -/
def PyList.toList : PyList → List PyVal
  | .lnil => []
  | .lcons v t => v :: PyList.toList t

/-- Build an embedded list from a Lean list. -/
def PyList.ofList : List PyVal → PyList
  | [] => .lnil
  | v :: t => .lcons v (PyList.ofList t)

/-- The entries of an embedded dict, in insertion order. -/
def PyDict.entries : PyDict → List (PyVal × PyVal)
  | .dnil => []
  | .dcons k v t => (k, v) :: PyDict.entries t

/-- Build an embedded dict from a Lean list of entries. -/
def PyDict.ofList : List (PyVal × PyVal) → PyDict
  | [] => .dnil
  | (k, v) :: t => .dcons k v (PyDict.ofList t)

/-- The numeric value of a Python number (`bool` counts as numeric, as in
`isinstance(w, (int, float))`, since Python bools are ints). -/
def numValQ : PyVal → Option ℚ
  | .pbool b => some (if b then 1 else 0)
  | .pint n => some (n : ℚ)
  | .pfloat q => some q
  | _ => none

/-- Whether `isinstance(v, (int, float))` holds. -/
def isNumVal (v : PyVal) : Bool := (numValQ v).isSome

/-- Numeric value with default 0 (only consulted on numbers). -/
def numValD (v : PyVal) : ℚ := (numValQ v).getD 0

/-- Whether `isinstance(v, str)` holds. -/
def isStrVal : PyVal → Bool
  | .pstr _ => true
  | _ => false

/-- Whether `isinstance(v, list)` holds. -/
def isListVal : PyVal → Bool
  | .plist _ => true
  | _ => false

/-- Whether `isinstance(v, dict)` holds. -/
def isDictVal : PyVal → Bool
  | .pdict _ => true
  | _ => false

/-- Whether a value is hashable (lists and dicts are not). -/
def hashable : PyVal → Bool
  | .plist _ => false
  | .pdict _ => false
  | _ => true

/-- Python `v is True`: identity with the singleton `True`. -/
def isTrueVal : PyVal → Bool
  | .pbool true => true
  | _ => false

/-- Python `v is False`: identity with the singleton `False`. -/
def isFalseVal : PyVal → Bool
  | .pbool false => true
  | _ => false

mutual
/-- Python `==` on embedded values: cross-type numeric equality
(`True == 1 == 1.0`), strings by value, lists elementwise, dicts by their
entry lists (see the header note), everything else unequal. -/
def pyEq : PyVal → PyVal → Bool
  | .pnone, .pnone => true
  | .pstr s, .pstr t => s == t
  | .plist a, .plist b => pyEqList a b
  | .pdict a, .pdict b => pyEqDict a b
  | a, b =>
    match numValQ a, numValQ b with
    | some x, some y => decide (x = y)
    | _, _ => false

/-- Elementwise Python `==` on list spines. -/
def pyEqList : PyList → PyList → Bool
  | .lnil, .lnil => true
  | .lcons a as, .lcons b bs => pyEq a b && pyEqList as bs
  | _, _ => false

/-- Entrywise equality on dict spines (modelling choice, see header). -/
def pyEqDict : PyDict → PyDict → Bool
  | .dnil, .dnil => true
  | .dcons k v t, .dcons k2 v2 t2 => pyEq k k2 && pyEq v v2 && pyEqDict t t2
  | _, _ => false
end

/-- Python truthiness of a value. -/
def pyTruthy : PyVal → Bool
  | .pnone => false
  | .pbool b => b
  | .pint n => decide (n ≠ 0)
  | .pfloat q => decide (q ≠ 0)
  | .pstr s => decide (s ≠ "")
  | .plist .lnil => false
  | .plist _ => true
  | .pdict .dnil => false
  | .pdict _ => true

/-- First value stored under a key `==`-equal to `k`, if any. -/
def dictFind? (d : PyDict) (k : PyVal) : Option PyVal :=
  (d.entries.find? (fun e => pyEq e.1 k)).map (fun e => e.2)

/-- Python `d.get(k)` on a dict (default `None`). -/
def dictGetD (d : PyDict) (k : String) : PyVal :=
  (dictFind? d (.pstr k)).getD .pnone

/-- Whether a dict has an entry under string key `k`. -/
def hasKeyStr (d : PyDict) (k : String) : Bool :=
  (dictFind? d (.pstr k)).isSome

/-- Python subscript `container[k]` with a string key: KeyError when a dict
lacks the key, TypeError when the container is not a dict. -/
def getItem (container : PyVal) (k : String) : Except PyErr PyVal :=
  match container with
  | .pdict d =>
    match dictFind? d (.pstr k) with
    | some v => .ok v
    | none => .error .keyErr
  | _ => .error .typeErr

/-- Python subscript `container[k]` with an arbitrary key value. -/
def getItemV (container : PyVal) (k : PyVal) : Except PyErr PyVal :=
  match container with
  | .pdict d =>
    match dictFind? d k with
    | some v => .ok v
    | none => .error .keyErr
  | _ => .error .typeErr

/-- Python `container.get(k)`: AttributeError when the receiver is not a
dict. -/
def getAttrGet (container : PyVal) (k : String) : Except PyErr PyVal :=
  match container with
  | .pdict d => .ok (dictGetD d k)
  | _ => .error .attrErr

/-- Whether the char-list `needle` occurs inside `hay` (Python `in` on str). -/
def startsWithCh : List Char → List Char → Bool
  | [], _ => true
  | _ :: _, [] => false
  | a :: as, b :: bs => a == b && startsWithCh as bs

/-- Substring search used to model Python `in` on strings. -/
def containsSub (needle hay : List Char) : Bool :=
  match hay with
  | [] => needle.isEmpty
  | _ :: t => startsWithCh needle hay || containsSub needle t

/-- Python `k in container` for a string `k`: key test on dicts, elementwise
`==` search on lists, substring test on strings, TypeError otherwise. -/
def inOp (k : String) (container : PyVal) : Except PyErr Bool :=
  match container with
  | .pdict d => .ok (d.entries.any (fun e => pyEq e.1 (.pstr k)))
  | .plist l => .ok (l.toList.any (fun v => pyEq v (.pstr k)))
  | .pstr s => .ok (containsSub k.toList s.toList)
  | _ => .error .typeErr

/-- Short-circuiting bind on `Except PyErr`. -/
def exBind {α β : Type} (x : Except PyErr α) (f : α → Except PyErr β) :
    Except PyErr β :=
  match x with
  | .error e => .error e
  | .ok a => f a

/-- Set equality of two element lists under Python `==` membership (both lists
are required to hold only hashable values at every call site). -/
def pySetEq (xs ys : List PyVal) : Bool :=
  xs.all (fun x => ys.any (fun y => pyEq x y)) &&
  ys.all (fun y => xs.any (fun x => pyEq x y))

/-- Addition on ℚ through `mkRat`, which (unlike the library's `Rat.add`,
marked irreducible) evaluates definitionally; `qAdd_eq` bridges it to `+`. -/
def qAdd (x y : ℚ) : ℚ := mkRat (x.num * y.den + y.num * x.den) (x.den * y.den)

/-- Multiplication on ℚ through `mkRat`; `qMul_eq` bridges it to `*`. -/
def qMul (x y : ℚ) : ℚ := mkRat (x.num * y.num) (x.den * y.den)

/-- Division on ℚ through `Rat.divInt` (with the library's `x / 0 = 0`
convention); `qDiv_eq` bridges it to `/`. -/
def qDiv (x y : ℚ) : ℚ := Rat.divInt (x.num * y.den) (x.den * y.num)

/-- Subtraction on ℚ; `qSub_eq` bridges it to `-`. -/
def qSub (x y : ℚ) : ℚ := qAdd x (-y)

/-- Absolute value on ℚ; `qAbs_eq` bridges it to `|.|`. -/
def qAbs (x : ℚ) : ℚ := if x < 0 then -x else x

/-- Sum of a list of rationals through `qAdd`; `qSum_eq` bridges it to
`List.sum`. -/
def qSum (l : List ℚ) : ℚ := l.foldr qAdd 0

theorem qAdd_eq (x y : ℚ) : qAdd x y = x + y := by
  unfold qAdd
  rw [Rat.mkRat_eq_divInt]
  push_cast
  conv_rhs => rw [← Rat.num_divInt_den x, ← Rat.num_divInt_den y]
  rw [Rat.divInt_add_divInt _ _ (by exact_mod_cast x.den_nz)
    (by exact_mod_cast y.den_nz)]

theorem qMul_eq (x y : ℚ) : qMul x y = x * y := by
  unfold qMul
  rw [Rat.mkRat_eq_divInt]
  push_cast
  conv_rhs => rw [← Rat.num_divInt_den x, ← Rat.num_divInt_den y]
  rw [Rat.divInt_mul_divInt _ _ (by exact_mod_cast x.den_nz)
    (by exact_mod_cast y.den_nz)]

theorem qDiv_eq (x y : ℚ) : qDiv x y = x / y := by
  unfold qDiv
  rw [Rat.div_def']

theorem qSub_eq (x y : ℚ) : qSub x y = x - y := by
  rw [qSub, qAdd_eq, sub_eq_add_neg]

theorem qAbs_eq (x : ℚ) : qAbs x = |x| := by
  unfold qAbs
  split
  · rw [abs_of_neg]; assumption
  · rw [abs_of_nonneg (le_of_not_lt (by assumption))]

theorem qSum_eq (l : List ℚ) : qSum l = l.sum := by
  unfold qSum
  induction l with
  | nil => rfl
  | cons x t ih => rw [List.foldr_cons, ih, qAdd_eq, List.sum_cons]

/-- Normative constant `EPSILON = 1e-9`, as an exact rational. -/
def EPSILON : ℚ := mkRat 1 1000000000

/-- Normative constant `CORRUPTION_RATIO_HARD_FAIL = 1.5`. -/
def CORRUPTION_RATIO_HARD_FAIL : ℚ := mkRat 3 2

/-- Normative constant `SYMMETRY_TOLERANCE_RATIO = 0.15` (renamed here, with
the same value, to keep identifiers simple). -/
def SYMMETRY_TOLERANCE_LIMIT : ℚ := mkRat 3 20

theorem EPSILON_eq : EPSILON = 1 / 1000000000 := by
  rw [EPSILON, Rat.mkRat_eq_div]; norm_num

theorem CORRUPTION_RATIO_HARD_FAIL_eq : CORRUPTION_RATIO_HARD_FAIL = 3 / 2 := by
  rw [CORRUPTION_RATIO_HARD_FAIL, Rat.mkRat_eq_div]; norm_num

theorem SYMMETRY_TOLERANCE_LIMIT_eq : SYMMETRY_TOLERANCE_LIMIT = 3 / 20 := by
  rw [SYMMETRY_TOLERANCE_LIMIT, Rat.mkRat_eq_div]; norm_num

/-- The canonical role set `CANONICAL_ROLES`. -/
def CANONICAL_ROLES : List String :=
  ["DESIGNER", "USER", "BENEFICIARY", "COMPONENT", "PRODUCT", "SYSTEM"]

/-- The canonical obligation direction table
`ALLOWED_OBLIGATION_DIRECTIONS`. -/
def ALLOWED_OBLIGATION_DIRECTIONS : List (String × String) :=
  [("DESIGNER", "SYSTEM"), ("SYSTEM", "COMPONENT"), ("SYSTEM", "PRODUCT"),
   ("COMPONENT", "PRODUCT"), ("PRODUCT", "USER")]

def R000_PARSE_FAILURE : String := "R000_PARSE_FAILURE"
def R001_USER_BENEFICIARY_MISMATCH : String := "R001_USER_BENEFICIARY_MISMATCH"
def R002_OWNERSHIP_NOT_EXPLICIT : String := "R002_OWNERSHIP_NOT_EXPLICIT"
def R003_CONTROL_DIRECTION_INVALID : String := "R003_CONTROL_DIRECTION_INVALID"
def R004_CONSENT_NOT_EXPLICIT : String := "R004_CONSENT_NOT_EXPLICIT"
def R005_IMPLIED_CONSENT_PRESENT : String := "R005_IMPLIED_CONSENT_PRESENT"
def R006_RENEGOTIATION_DISABLED : String := "R006_RENEGOTIATION_DISABLED"
def R007_WEIGHTS_INVALID : String := "R007_WEIGHTS_INVALID"
def R008_BURDEN_MISSING : String := "R008_BURDEN_MISSING"
def R009_INCONVENIENCE_RATIO_FAIL : String := "R009_INCONVENIENCE_RATIO_FAIL"
def R010_SYMMETRY_TOLERANCE_FAIL : String := "R010_SYMMETRY_TOLERANCE_FAIL"
def R011_OBLIGATION_DIRECTION_INVALID : String := "R011_OBLIGATION_DIRECTION_INVALID"
def R012_CONSENT_RULES_VIOLATED : String := "R012_CONSENT_RULES_VIOLATED"
def R013_EXPIRY_MISSING : String := "R013_EXPIRY_MISSING"
def R014_USER_COERCIVE_OBLIGATION : String := "R014_USER_COERCIVE_OBLIGATION"
def R017_ROLE_INTEGRITY_FAIL : String := "R017_ROLE_INTEGRITY_FAIL"
def R018_CONSENT_EXPIRY_MISSING : String := "R018_CONSENT_EXPIRY_MISSING"

/-- The seventeen stable reason codes of the validator. -/
def allReasonCodes : List String :=
  [R000_PARSE_FAILURE, R001_USER_BENEFICIARY_MISMATCH,
   R002_OWNERSHIP_NOT_EXPLICIT, R003_CONTROL_DIRECTION_INVALID,
   R004_CONSENT_NOT_EXPLICIT, R005_IMPLIED_CONSENT_PRESENT,
   R006_RENEGOTIATION_DISABLED, R007_WEIGHTS_INVALID, R008_BURDEN_MISSING,
   R009_INCONVENIENCE_RATIO_FAIL, R010_SYMMETRY_TOLERANCE_FAIL,
   R011_OBLIGATION_DIRECTION_INVALID, R012_CONSENT_RULES_VIOLATED,
   R013_EXPIRY_MISSING, R014_USER_COERCIVE_OBLIGATION,
   R017_ROLE_INTEGRITY_FAIL, R018_CONSENT_EXPIRY_MISSING]

/-- Embeds `ValidationResult` (the `details` field of the source is always
`None` and is omitted). -/
structure VResult where
  status : String
  error_code : Option String
  deriving DecidableEq

/-- The per-key check of the top-level key loop of `_strict_parse_manifest`:
the key must be a string without a dot. -/
def topKeyOk : PyVal → Bool
  | .pstr s => !(s.toList.contains '.')
  | _ => false

/-- Embeds `_strict_parse_manifest` (step 1): type of the root, no dotted or
non-string top-level keys, the six required sections present and correctly
typed.  This stage raises no exception. -/
def strict_parse_manifest (manifest : PyVal) : Bool × String :=
  match manifest with
  | .pdict d =>
    let ks := d.entries.map (fun e => e.1)
    if !(ks.all topKeyOk) then (false, R000_PARSE_FAILURE)
    else if !(["entities", "system", "ownership", "consent", "inconvenience",
               "obligations"].all (fun r => ks.any (fun k => pyEq k (.pstr r))))
      then (false, R000_PARSE_FAILURE)
    else if !(isListVal (dictGetD d "entities")) then (false, R000_PARSE_FAILURE)
    else if !(isListVal (dictGetD d "obligations")) then (false, R000_PARSE_FAILURE)
    else if !(isDictVal (dictGetD d "system")) then (false, R000_PARSE_FAILURE)
    else if !(isDictVal (dictGetD d "ownership")) then (false, R000_PARSE_FAILURE)
    else if !(isDictVal (dictGetD d "consent")) then (false, R000_PARSE_FAILURE)
    else if !(isDictVal (dictGetD d "inconvenience")) then (false, R000_PARSE_FAILURE)
    else (true, "")
  | _ => (false, R000_PARSE_FAILURE)

/-- The checks of `_strict_schema_completeness` on the `system`, `ownership`
and `consent` sections that precede the consent-expiry check (source lines
207-218). -/
def schema_sys_own_consent (system ownership consent : PyVal) :
    Except PyErr (Option String) :=
  exBind (inOp "declared_user_entities" system) fun h1 =>
  if !h1 then .ok (some R000_PARSE_FAILURE) else
  exBind (inOp "declared_beneficiary_entities" system) fun h2 =>
  if !h2 then .ok (some R000_PARSE_FAILURE) else
  exBind (getItem system "declared_user_entities") fun du =>
  if !(isListVal du) then .ok (some R000_PARSE_FAILURE) else
  exBind (getItem system "declared_beneficiary_entities") fun db =>
  if !(isListVal db) then .ok (some R000_PARSE_FAILURE) else
  exBind (inOp "ownership_explicit" ownership) fun h3 =>
  if !h3 then .ok (some R000_PARSE_FAILURE) else
  exBind (inOp "control_direction" ownership) fun h4 =>
  if !h4 then .ok (some R000_PARSE_FAILURE) else
  exBind (inOp "consent_explicit" consent) fun h5 =>
  if !h5 then .ok (some R000_PARSE_FAILURE) else
  exBind (inOp "implied_consent_accepted" consent) fun h6 =>
  if !h6 then .ok (some R000_PARSE_FAILURE) else
  exBind (inOp "renegotiation_on_change" consent) fun h7 =>
  if !h7 then .ok (some R000_PARSE_FAILURE) else
  .ok none

/-- The checks of `_strict_schema_completeness` on the `inconvenience`
section (source lines 223-228). -/
def schema_inconvenience (inc : PyVal) : Except PyErr (Option String) :=
  exBind (inOp "model" inc) fun h1 =>
  if !h1 then .ok (some R000_PARSE_FAILURE) else
  exBind (inOp "weights" inc) fun h2 =>
  if !h2 then .ok (some R000_PARSE_FAILURE) else
  exBind (inOp "expected" inc) fun h3 =>
  if !h3 then .ok (some R000_PARSE_FAILURE) else
  exBind (getItem inc "model") fun model =>
  if !(isDictVal model) then .ok (some R000_PARSE_FAILURE) else
  exBind (getItem inc "weights") fun weights =>
  if !(isDictVal weights) then .ok (some R000_PARSE_FAILURE) else
  exBind (getItem inc "expected") fun expected =>
  if !(isListVal expected) then .ok (some R000_PARSE_FAILURE) else
  exBind (inOp "dimensions" model) fun h4 =>
  if !h4 then .ok (some R000_PARSE_FAILURE) else
  exBind (getItem model "dimensions") fun dims =>
  if !(isListVal dims) then .ok (some R000_PARSE_FAILURE) else
  if !(pyTruthy dims) then .ok (some R000_PARSE_FAILURE) else
  .ok none

/-- Embeds `_strict_schema_completeness` (step 2): required nested fields,
with a present-but-falsy or absent `consent_expires_at` special-cased to
`R018_CONSENT_EXPIRY_MISSING`. -/
def strict_schema_completeness (manifest : PyVal) : Except PyErr (Bool × String) :=
  exBind (getItem manifest "system") fun system =>
  exBind (getItem manifest "ownership") fun ownership =>
  exBind (getItem manifest "consent") fun consent =>
  exBind (getItem manifest "inconvenience") fun inc =>
  exBind (schema_sys_own_consent system ownership consent) fun pre =>
  match pre with
  | some c => .ok (false, c)
  | none =>
    exBind (inOp "consent_expires_at" consent) fun h8 =>
    if !h8 then .ok (false, R018_CONSENT_EXPIRY_MISSING) else
    exBind (getItem consent "consent_expires_at") fun ce =>
    if !(pyTruthy ce) then .ok (false, R018_CONSENT_EXPIRY_MISSING) else
    exBind (schema_inconvenience inc) fun post =>
    match post with
    | some c => .ok (false, c)
    | none => .ok (true, "")

/-- Loop of `_build_entity_index` over the entity records.  Membership of the
role in `CANONICAL_ROLES` hashes the role value first, so an unhashable role
(a list or a dict) raises TypeError. -/
def build_entity_go : List PyVal → List (String × String) →
    Except PyErr (Bool × String × List (String × String))
  | [], idx => .ok (true, "", idx)
  | e :: rest, idx =>
    match e with
    | .pdict d =>
      if !(hasKeyStr d "id") || !(hasKeyStr d "role") then
        .ok (false, R017_ROLE_INTEGRITY_FAIL, [])
      else
        match dictGetD d "id" with
        | .pstr s =>
          if s = "" then .ok (false, R017_ROLE_INTEGRITY_FAIL, [])
          else
            match dictGetD d "role" with
            | .plist _ => .error .typeErr
            | .pdict _ => .error .typeErr
            | .pstr r =>
              if !(CANONICAL_ROLES.contains r) then
                .ok (false, R017_ROLE_INTEGRITY_FAIL, [])
              else if idx.any (fun p => p.1 == s) then
                .ok (false, R017_ROLE_INTEGRITY_FAIL, [])
              else build_entity_go rest (idx ++ [(s, r)])
            | _ => .ok (false, R017_ROLE_INTEGRITY_FAIL, [])
        | _ => .ok (false, R017_ROLE_INTEGRITY_FAIL, [])
    | _ => .ok (false, R017_ROLE_INTEGRITY_FAIL, [])

/-- Embeds `_build_entity_index` (step 3): role integrity and construction of
the id-to-role index. -/
def build_entity_index (manifest : PyVal) :
    Except PyErr (Bool × String × List (String × String)) :=
  exBind (getItem manifest "entities") fun entities =>
  match entities with
  | .plist l => build_entity_go l.toList []
  | _ => .error .typeErr

/-- Loop of `_strict_referential_integrity` over a declared-entity id list:
each id must be a string and resolve in the index. -/
def refint_ids (idx : List (String × String)) : List PyVal → Option String
  | [] => none
  | v :: rest =>
    match v with
    | .pstr s =>
      if idx.any (fun p => p.1 == s) then refint_ids idx rest
      else some R017_ROLE_INTEGRITY_FAIL
    | _ => some R017_ROLE_INTEGRITY_FAIL

/-- Loop of `_strict_referential_integrity` over the obligations: each must be
a dict with string `from`/`to` endpoints resolving in the index. -/
def refint_obligations (idx : List (String × String)) : List PyVal → Option String
  | [] => none
  | o :: rest =>
    match o with
    | .pdict d =>
      if !(hasKeyStr d "from") || !(hasKeyStr d "to") then
        some R000_PARSE_FAILURE
      else
        match dictGetD d "from", dictGetD d "to" with
        | .pstr fr, .pstr toV =>
          if idx.any (fun p => p.1 == fr) && idx.any (fun p => p.1 == toV) then
            refint_obligations idx rest
          else some R017_ROLE_INTEGRITY_FAIL
        | _, _ => some R000_PARSE_FAILURE
    | _ => some R000_PARSE_FAILURE

/-- Loop of `_strict_referential_integrity` over the burden records: each must
be a dict whose `entity` is a string resolving in the index. -/
def refint_burdens (idx : List (String × String)) : List PyVal → Option String
  | [] => none
  | b :: rest =>
    match b with
    | .pdict d =>
      if !(hasKeyStr d "entity") then some R000_PARSE_FAILURE
      else
        match dictGetD d "entity" with
        | .pstr s =>
          if idx.any (fun p => p.1 == s) then refint_burdens idx rest
          else some R017_ROLE_INTEGRITY_FAIL
        | _ => some R017_ROLE_INTEGRITY_FAIL
    | _ => some R000_PARSE_FAILURE

/-- Embeds `_strict_referential_integrity` (step 3b): declared system ids,
obligation endpoints and burden entities must all resolve in the entity
index. -/
def strict_referential_integrity (manifest : PyVal)
    (idx : List (String × String)) : Except PyErr (Bool × String) :=
  exBind (getItem manifest "system") fun system =>
  exBind (getItem system "declared_user_entities") fun du =>
  match du with
  | .plist dul =>
    match refint_ids idx dul.toList with
    | some c => .ok (false, c)
    | none =>
      exBind (getItem system "declared_beneficiary_entities") fun db =>
      match db with
      | .plist dbl =>
        match refint_ids idx dbl.toList with
        | some c => .ok (false, c)
        | none =>
          exBind (getItem manifest "obligations") fun obl =>
          match obl with
          | .plist ol =>
            match refint_obligations idx ol.toList with
            | some c => .ok (false, c)
            | none =>
              exBind (getItem manifest "inconvenience") fun inc =>
              exBind (getItem inc "expected") fun expected =>
              match expected with
              | .plist bl =>
                match refint_burdens idx bl.toList with
                | some c => .ok (false, c)
                | none => .ok (true, "")
              | _ => .error .typeErr
          | _ => .error .typeErr
      | _ => .error .typeErr
  | _ => .error .typeErr

/-- Embeds `_verify_user_beneficiary_alignment` (step 4): the declared user
and beneficiary id lists must be equal as sets.  Building a Python set from a
list holding an unhashable element raises TypeError. -/
def verify_user_beneficiary_alignment (manifest : PyVal) :
    Except PyErr (Bool × String) :=
  exBind (getItem manifest "system") fun system =>
  exBind (getItem system "declared_user_entities") fun du =>
  exBind (getItem system "declared_beneficiary_entities") fun db =>
  match du, db with
  | .plist ul, .plist bl =>
    if !(ul.toList.all hashable) || !(bl.toList.all hashable) then
      .error .typeErr
    else if pySetEq ul.toList bl.toList then .ok (true, "")
    else .ok (false, R001_USER_BENEFICIARY_MISMATCH)
  | _, _ => .error .typeErr

/-- Embeds `_verify_ownership` (step 5). -/
def verify_ownership (manifest : PyVal) : Except PyErr (Bool × String) :=
  exBind (getItem manifest "ownership") fun ownership =>
  exBind (getAttrGet ownership "ownership_explicit") fun oe =>
  if !(isTrueVal oe) then .ok (false, R002_OWNERSHIP_NOT_EXPLICIT) else
  exBind (getAttrGet ownership "control_direction") fun cd =>
  if !(pyEq cd (.pstr "DESIGNER_TO_USER")) then
    .ok (false, R003_CONTROL_DIRECTION_INVALID)
  else .ok (true, "")

/-- Embeds `_verify_consent` (step 6). -/
def verify_consent (manifest : PyVal) : Except PyErr (Bool × String) :=
  exBind (getItem manifest "consent") fun consent =>
  exBind (getAttrGet consent "consent_explicit") fun ce =>
  if !(isTrueVal ce) then .ok (false, R004_CONSENT_NOT_EXPLICIT) else
  exBind (getAttrGet consent "implied_consent_accepted") fun ic =>
  if !(isFalseVal ic) then .ok (false, R005_IMPLIED_CONSENT_PRESENT) else
  exBind (getAttrGet consent "renegotiation_on_change") fun rn =>
  if !(isTrueVal rn) then .ok (false, R006_RENEGOTIATION_DISABLED) else
  exBind (getAttrGet consent "consent_expires_at") fun cex =>
  if !(pyTruthy cex) then .ok (false, R018_CONSENT_EXPIRY_MISSING) else
  .ok (true, "")

/-- Per-entry check of the weights loop: key a string, value numeric, value
not negative (a violation returns `R007_WEIGHTS_INVALID`; the early exit of
the loop produces the same outcome as checking all entries). -/
def weightsEntriesOk (entries : List (PyVal × PyVal)) : Bool :=
  entries.all (fun e => isStrVal e.1 && isNumVal e.2 && decide (0 ≤ numValD e.2))

/-- The value of `float(sum(weights.values()))` once every value is known to
be numeric. -/
def weightsSum (entries : List (PyVal × PyVal)) : ℚ :=
  qSum (entries.map (fun e => numValD e.2))

/-- Embeds `_verify_inconvenience_weights` (step 7): non-empty dict, string
keys, numeric non-negative values, sum within `EPSILON` of 1, and key set
exactly the declared dimension set.  Building `set(dims)` raises TypeError
when a dimension entry is unhashable. -/
def verify_inconvenience_weights (manifest : PyVal) :
    Except PyErr (Bool × String) :=
  exBind (getItem manifest "inconvenience") fun inc =>
  exBind (getItem inc "weights") fun weights =>
  match weights with
  | .pdict wd =>
    let entries := wd.entries
    if entries.isEmpty then .ok (false, R007_WEIGHTS_INVALID)
    else if !(weightsEntriesOk entries) then .ok (false, R007_WEIGHTS_INVALID)
    else if qAbs (qSub (weightsSum entries) 1) > EPSILON then
      .ok (false, R007_WEIGHTS_INVALID)
    else
      exBind (getItem manifest "inconvenience") fun inc2 =>
      exBind (getItem inc2 "model") fun model =>
      exBind (getItem model "dimensions") fun dimsV =>
      match dimsV with
      | .plist dl =>
        if !(dl.toList.all hashable) then .error .typeErr
        else if !(pySetEq (entries.map (fun e => e.1)) dl.toList) then
          .ok (false, R007_WEIGHTS_INVALID)
        else .ok (true, "")
      | _ => .error .typeErr
  | _ => .ok (false, R007_WEIGHTS_INVALID)

/-- Per-dimension value check of the coverage loop: `b[d]` must be numeric
(the key is present because the key-set equality was just established; a
missing key would be a KeyError). -/
def coverage_dims (bd : PyDict) : List PyVal → Except PyErr Bool
  | [] => .ok true
  | d :: rest =>
    match dictFind? bd d with
    | some v => if !(isNumVal v) then .ok false else coverage_dims bd rest
    | none => .error .keyErr

/-- Loop of `_strict_inconvenience_coverage` over the burden records. -/
def coverage_loop (dims : List PyVal) : List PyVal → Except PyErr (Bool × String)
  | [] => .ok (true, "")
  | b :: rest =>
    match b with
    | .pdict bd =>
      if !(hasKeyStr bd "entity") then .ok (false, R000_PARSE_FAILURE)
      else
        let bkeys := (bd.entries.map (fun e => e.1)).filter
          (fun k => !(pyEq k (.pstr "entity")))
        if !(pySetEq bkeys dims) then .ok (false, R008_BURDEN_MISSING)
        else
          exBind (coverage_dims bd dims) fun ok =>
          if !ok then .ok (false, R008_BURDEN_MISSING)
          else coverage_loop dims rest
    | _ => .ok (false, R000_PARSE_FAILURE)

/-- Embeds `_strict_inconvenience_coverage` (step 8): every burden record's
key set minus `entity` equals the dimension set and every dimension value is
numeric. -/
def strict_inconvenience_coverage (manifest : PyVal) :
    Except PyErr (Bool × String) :=
  exBind (getItem manifest "inconvenience") fun inc =>
  exBind (getItem inc "model") fun model =>
  exBind (getItem model "dimensions") fun dimsV =>
  match dimsV with
  | .plist dl =>
    if !(dl.toList.all hashable) then .error .typeErr
    else
      exBind (getItem inc "expected") fun burdens =>
      if !(pyTruthy burdens) then .ok (false, R008_BURDEN_MISSING)
      else
        match burdens with
        | .plist bl => coverage_loop dl.toList bl.toList
        | _ => .error .typeErr
  | _ => .error .typeErr

/-- Python `float(x)` as used in `_compute_inconvenience_totals`: defined on
booleans, ints and floats; any other operand maps to the exception branch of
the enclosing `try` (the validator reaches this code only after steps 7 and 8
have established numeric operands). -/
def pyFloat (v : PyVal) : Option ℚ := numValQ v

/-- Store `totals[eid] = total` (overwrite the entry with an `==`-equal key,
else append). -/
def totalsSet (totals : List (PyVal × ℚ)) (eid : PyVal) (total : ℚ) :
    List (PyVal × ℚ) :=
  if totals.any (fun p => pyEq p.1 eid) then
    totals.map (fun p => if pyEq p.1 eid then (p.1, total) else p)
  else totals ++ [(eid, total)]

/-- Python `totals.get(key, 0.0)`. -/
def totalsGet (totals : List (PyVal × ℚ)) (key : PyVal) : ℚ :=
  ((totals.find? (fun p => pyEq p.1 key)).map (fun p => p.2)).getD 0

/-- The inner sum `Σ float(weights[d]) * float(b[d])`; `none` models any
exception caught by the `try` of `_compute_inconvenience_totals`. -/
def totals_dims (weightsV : PyVal) (bd : PyDict) : List PyVal → Option ℚ
  | [] => some 0
  | d :: rest =>
    match weightsV with
    | .pdict wd =>
      match dictFind? wd d with
      | some w =>
        match pyFloat w with
        | some qw =>
          match dictFind? bd d with
          | some bv =>
            match pyFloat bv with
            | some qb =>
              match totals_dims weightsV bd rest with
              | some acc => some (qAdd (qMul qw qb) acc)
              | none => none
            | none => none
          | none => none
        | none => none
      | none => none
    | _ => none

/-- The burden loop of `_compute_inconvenience_totals`; `none` models any
exception caught by its `try`. -/
def totals_loop (dimsV weightsV : PyVal) :
    List PyVal → List (PyVal × ℚ) → Option (List (PyVal × ℚ))
  | [], acc => some acc
  | b :: rest, acc =>
    match b with
    | .pdict bd =>
      match dictFind? bd (.pstr "entity") with
      | some eid =>
        match dimsV with
        | .plist dl =>
          match totals_dims weightsV bd dl.toList with
          | some total =>
            if !(hashable eid) then none
            else totals_loop dimsV weightsV rest (totalsSet acc eid total)
          | none => none
        | _ => none
      | none => none
    | _ => none

/-- Embeds `_compute_inconvenience_totals` (step 9): the weighted totals per
entity; every exception inside the loop is caught and mapped to
`R008_BURDEN_MISSING`. -/
def compute_inconvenience_totals (manifest : PyVal) :
    Except PyErr (Bool × String × List (PyVal × ℚ)) :=
  exBind (getItem manifest "inconvenience") fun inc =>
  exBind (getItem inc "model") fun model =>
  exBind (getItem model "dimensions") fun dimsV =>
  exBind (getItem inc "weights") fun weightsV =>
  exBind (getItem inc "expected") fun burdensV =>
  match burdensV with
  | .plist bl =>
    match totals_loop dimsV weightsV bl.toList [] with
    | some t => .ok (true, "", t)
    | none => .ok (false, R008_BURDEN_MISSING, [])
  | _ => .ok (false, R008_BURDEN_MISSING, [])

/-- The list comprehension `[e["id"] for e in entities if e["role"] == role]`
over already-fetched entity records. -/
def roleIds_go (role : String) : List PyVal → Except PyErr (List PyVal)
  | [] => .ok []
  | e :: rest =>
    exBind (getItem e "role") fun r =>
    if pyEq r (.pstr role) then
      exBind (getItem e "id") fun i =>
      exBind (roleIds_go role rest) fun tl =>
      .ok (i :: tl)
    else roleIds_go role rest

/-- The ids of the manifest's entities carrying the given role, in list
order. -/
def roleIds (manifest : PyVal) (role : String) : Except PyErr (List PyVal) :=
  exBind (getItem manifest "entities") fun entities =>
  match entities with
  | .plist l => roleIds_go role l.toList
  | _ => .error .typeErr

/-- The arithmetic mean of the totals of the given ids (`totals.get(id, 0.0)`
for absent ids). -/
def meanTotals (totals : List (PyVal × ℚ)) (ids : List PyVal) : ℚ :=
  qDiv (qSum (ids.map (totalsGet totals))) ((ids.length : ℚ))

theorem meanTotals_eq (totals : List (PyVal × ℚ)) (ids : List PyVal) :
    meanTotals totals ids =
      (ids.map (totalsGet totals)).sum / (ids.length : ℚ) := by
  rw [meanTotals, qDiv_eq, qSum_eq]

/-- Embeds `_check_corruption_ratio` (step 10): both role populations must be
non-empty; with `i_ben = 0` any positive `i_user` fails; otherwise the ratio
must not exceed `CORRUPTION_RATIO_HARD_FAIL`. -/
def check_corruption_ratio (manifest : PyVal) (totals : List (PyVal × ℚ)) :
    Except PyErr (Bool × String) :=
  exBind (roleIds manifest "USER") fun userIds =>
  exBind (roleIds manifest "BENEFICIARY") fun benIds =>
  if userIds.isEmpty || benIds.isEmpty then
    .ok (false, R009_INCONVENIENCE_RATIO_FAIL)
  else
    let iUser := meanTotals totals userIds
    let iBen := meanTotals totals benIds
    if iBen = 0 then
      if iUser > 0 then .ok (false, R009_INCONVENIENCE_RATIO_FAIL)
      else .ok (true, "")
    else if qDiv iUser iBen > CORRUPTION_RATIO_HARD_FAIL then
      .ok (false, R009_INCONVENIENCE_RATIO_FAIL)
    else .ok (true, "")

/-- Embeds `_check_symmetry_tolerance` (step 11): with both means zero the
stage passes; otherwise the relative deviation must not exceed
`SYMMETRY_TOLERANCE_LIMIT`. -/
def check_symmetry_tolerance (manifest : PyVal) (totals : List (PyVal × ℚ)) :
    Except PyErr (Bool × String) :=
  exBind (roleIds manifest "USER") fun userIds =>
  exBind (roleIds manifest "BENEFICIARY") fun benIds =>
  if userIds.isEmpty || benIds.isEmpty then
    .ok (false, R010_SYMMETRY_TOLERANCE_FAIL)
  else
    let iUser := meanTotals totals userIds
    let iBen := meanTotals totals benIds
    let maxInc := max iUser iBen
    if maxInc = 0 then .ok (true, "")
    else if qDiv (qAbs (qSub iUser iBen)) maxInc > SYMMETRY_TOLERANCE_LIMIT then
      .ok (false, R010_SYMMETRY_TOLERANCE_FAIL)
    else .ok (true, "")

/-- Modelled from the spec: the source file's `_parse_timestamp` helper is
missing from src (the file is truncated after line 499).  Design notes
section 9 requires expiry strings to be parsed as absolute, timezone-aware
instants, with unparseable or timezone-ambiguous values rejected.  We model
it as accepting exactly UTC instants written `YYYY-MM-DDTHH:MM:SSZ`, mapped
monotonically to an integer key; every other value is unparseable (`none`). -/
def parse_timestamp (v : PyVal) : Option Int :=
  match v with
  | .pstr s =>
    match s.toList with
    | [y1, y2, y3, y4, sep1, mo1, mo2, sep2, d1, d2, sept,
       h1, h2, sep3, mi1, mi2, sep4, s1, s2, z] =>
      if sep1 = '-' && sep2 = '-' && sept = 'T' && sep3 = ':' && sep4 = ':' &&
         z = 'Z' &&
         [y1, y2, y3, y4, mo1, mo2, d1, d2, h1, h2, mi1, mi2, s1, s2].all
           Char.isDigit then
        some (([y1, y2, y3, y4, mo1, mo2, d1, d2, h1, h2, mi1, mi2, s1, s2].foldl
          (fun acc c => acc * 10 + (c.toNat - 48)) 0 : Nat))
      else none
    | _ => none
  | _ => none

/-- Resolution `entity_index[v]` of an obligation endpoint: TypeError on an
unhashable subscript, KeyError on a hashable value absent from the index. -/
def indexLookup (idx : List (String × String)) (v : PyVal) :
    Except PyErr String :=
  match v with
  | .pstr s =>
    match idx.find? (fun p => p.1 == s) with
    | some p => .ok p.2
    | none => .error .keyErr
  | .plist _ => .error .typeErr
  | .pdict _ => .error .typeErr
  | _ => .error .keyErr

/-- One iteration of the obligation loop of `_strict_obligation_enforcement`:
required fields, expiry presence and parse, direction table, consent binding,
and the USER-coercion rule.  Returns `some code` for the early `return` of
the loop and `none` to continue.  The body of the final
`consent_required is not False` branch is missing from the truncated source;
it is modelled from the spec (section 4.11: `consent_required` must be
exactly false for a USER-targeted obligation, else USER_COERCIVE_OBLIGATION). -/
def obligation_step (consentExp : Int) (idx : List (String × String))
    (o : PyVal) : Except PyErr (Option String) :=
  match o with
  | .pdict od =>
    if !(hasKeyStr od "id") || !(hasKeyStr od "from") ||
       !(hasKeyStr od "to") || !(hasKeyStr od "type") then
      .ok (some R000_PARSE_FAILURE)
    else if !(pyTruthy (dictGetD od "expires_at")) then
      .ok (some R013_EXPIRY_MISSING)
    else
      match parse_timestamp (dictGetD od "expires_at") with
      | none => .ok (some R012_CONSENT_RULES_VIOLATED)
      | some oExp =>
        exBind (indexLookup idx (dictGetD od "from")) fun fromRole =>
        exBind (indexLookup idx (dictGetD od "to")) fun toRole =>
        if !(ALLOWED_OBLIGATION_DIRECTIONS.contains (fromRole, toRole)) then
          .ok (some R011_OBLIGATION_DIRECTION_INVALID)
        else if isTrueVal (dictGetD od "consent_required") &&
                decide (oExp > consentExp) then
          .ok (some R012_CONSENT_RULES_VIOLATED)
        else if toRole = "USER" then
          if !(pyEq (dictGetD od "type") (.pstr "INFORMATIONAL_DISCLOSURE")) then
            .ok (some R014_USER_COERCIVE_OBLIGATION)
          else if !(isFalseVal (dictGetD od "consent_required")) then
            .ok (some R014_USER_COERCIVE_OBLIGATION)
          else .ok none
        else .ok none
  | _ => .ok (some R000_PARSE_FAILURE)

/-- The obligation loop; passing every obligation yields the trailing
`return True, ""`, which is modelled from the spec (the tail of the function
is missing from the truncated source). -/
def obligations_loop (consentExp : Int) (idx : List (String × String)) :
    List PyVal → Except PyErr (Bool × String)
  | [] => .ok (true, "")
  | o :: rest =>
    exBind (obligation_step consentExp idx o) fun r =>
    match r with
    | some code => .ok (false, code)
    | none => obligations_loop consentExp idx rest

/-- Embeds `_strict_obligation_enforcement` (step 12). -/
def strict_obligation_enforcement (manifest : PyVal)
    (idx : List (String × String)) : Except PyErr (Bool × String) :=
  exBind (getItem manifest "consent") fun consent =>
  exBind (getItem consent "consent_expires_at") fun ce =>
  match parse_timestamp ce with
  | none => .ok (false, R018_CONSENT_EXPIRY_MISSING)
  | some cexp =>
    exBind (getItem manifest "obligations") fun obl =>
    match obl with
    | .plist ol => obligations_loop cexp idx ol.toList
    | _ => .error .typeErr

/-- Embeds `SLMLValidatorV01.validate`: the fixed-order 13-stage pipeline,
short-circuiting on the first failing stage (a failing totals computation is
mapped to `R008_BURDEN_MISSING` at line 139 of the source). -/
def validate (manifest : PyVal) : Except PyErr VResult :=
  match strict_parse_manifest manifest with
  | (false, err) => .ok ⟨"CORRUPTED", some err⟩
  | (true, _) =>
    exBind (strict_schema_completeness manifest) fun r2 =>
    match r2 with
    | (false, err) => .ok ⟨"CORRUPTED", some err⟩
    | (true, _) =>
      exBind (build_entity_index manifest) fun r3 =>
      match r3 with
      | (false, err, _) => .ok ⟨"CORRUPTED", some err⟩
      | (true, _, idx) =>
        exBind (strict_referential_integrity manifest idx) fun r3b =>
        match r3b with
        | (false, err) => .ok ⟨"CORRUPTED", some err⟩
        | (true, _) =>
          exBind (verify_user_beneficiary_alignment manifest) fun r4 =>
          match r4 with
          | (false, err) => .ok ⟨"CORRUPTED", some err⟩
          | (true, _) =>
            exBind (verify_ownership manifest) fun r5 =>
            match r5 with
            | (false, err) => .ok ⟨"CORRUPTED", some err⟩
            | (true, _) =>
              exBind (verify_consent manifest) fun r6 =>
              match r6 with
              | (false, err) => .ok ⟨"CORRUPTED", some err⟩
              | (true, _) =>
                exBind (verify_inconvenience_weights manifest) fun r7 =>
                match r7 with
                | (false, err) => .ok ⟨"CORRUPTED", some err⟩
                | (true, _) =>
                  exBind (strict_inconvenience_coverage manifest) fun r8 =>
                  match r8 with
                  | (false, err) => .ok ⟨"CORRUPTED", some err⟩
                  | (true, _) =>
                    exBind (compute_inconvenience_totals manifest) fun r9 =>
                    match r9 with
                    | (false, _, _) =>
                      .ok ⟨"CORRUPTED", some R008_BURDEN_MISSING⟩
                    | (true, _, totals) =>
                      exBind (check_corruption_ratio manifest totals) fun r10 =>
                      match r10 with
                      | (false, err) => .ok ⟨"CORRUPTED", some err⟩
                      | (true, _) =>
                        exBind (check_symmetry_tolerance manifest totals) fun r11 =>
                        match r11 with
                        | (false, err) => .ok ⟨"CORRUPTED", some err⟩
                        | (true, _) =>
                          exBind (strict_obligation_enforcement manifest idx) fun r12 =>
                          match r12 with
                          | (false, err) => .ok ⟨"CORRUPTED", some err⟩
                          | (true, _) => .ok ⟨"ADMISSIBLE", none⟩

/-- Build a dict value from string-keyed entries. -/
def dstr (kvs : List (String × PyVal)) : PyVal :=
  .pdict (PyDict.ofList (kvs.map (fun p => (.pstr p.1, p.2))))

/-- Build a list value. -/
def larr (vs : List PyVal) : PyVal := .plist (PyList.ofList vs)

/-- An entity record. -/
def entRec (i r : String) : PyVal := dstr [("id", .pstr i), ("role", .pstr r)]

/-- Assemble a manifest from its six sections. -/
def mkManifest (entities system ownership consent inconvenience obligations :
    PyVal) : PyVal :=
  dstr [("entities", entities), ("system", system), ("ownership", ownership),
        ("consent", consent), ("inconvenience", inconvenience),
        ("obligations", obligations)]

/-- Entities of the baseline valid manifest. -/
def goodEntities : PyVal :=
  larr [entRec "u" "USER", entRec "b" "BENEFICIARY", entRec "d" "DESIGNER",
        entRec "p" "PRODUCT"]

/-- System declaration of the baseline valid manifest. -/
def goodSystem : PyVal :=
  dstr [("declared_user_entities", larr [.pstr "u"]),
        ("declared_beneficiary_entities", larr [.pstr "u"])]

/-- Ownership section of the baseline valid manifest. -/
def goodOwnership : PyVal :=
  dstr [("ownership_explicit", .pbool true),
        ("control_direction", .pstr "DESIGNER_TO_USER")]

/-- Consent section of the baseline valid manifest. -/
def goodConsent : PyVal :=
  dstr [("consent_explicit", .pbool true),
        ("implied_consent_accepted", .pbool false),
        ("renegotiation_on_change", .pbool true),
        ("consent_expires_at", .pstr "2030-01-01T00:00:00Z")]

/-- Inconvenience section of the baseline valid manifest: one dimension TIME
with weight 1, burden 1 for both the user and the beneficiary entity. -/
def goodInconvenience : PyVal :=
  dstr [("model", dstr [("dimensions", larr [.pstr "TIME"])]),
        ("weights", dstr [("TIME", .pint 1)]),
        ("expected", larr [dstr [("entity", .pstr "u"), ("TIME", .pint 1)],
                           dstr [("entity", .pstr "b"), ("TIME", .pint 1)]])]

/-- A baseline manifest that the validator accepts. -/
def goodManifest : PyVal :=
  mkManifest goodEntities goodSystem goodOwnership goodConsent
    goodInconvenience (larr [])

/-- A manifest identical to the baseline except that its single entity's role
is the Python list `[]`: checking `role not in CANONICAL_ROLES` hashes the
role, so the validator raises TypeError instead of returning a result. -/
def crashRoleManifest : PyVal :=
  mkManifest (larr [dstr [("id", .pstr "e"), ("role", larr [])]])
    goodSystem goodOwnership goodConsent goodInconvenience (larr [])

/-- A manifest identical to the baseline except that the declared dimension
list holds a list: `set(dims)` in the weight validator hashes the dimension
entries, so the validator raises TypeError instead of returning a result. -/
def crashDimsManifest : PyVal :=
  mkManifest goodEntities goodSystem goodOwnership goodConsent
    (dstr [("model", dstr [("dimensions", larr [larr [.pstr "TIME"]])]),
           ("weights", dstr [("TIME", .pint 1)]),
           ("expected", larr [dstr [("entity", .pstr "u"), ("TIME", .pint 1)],
                              dstr [("entity", .pstr "b"), ("TIME", .pint 1)]])])
    (larr [])

/-- A manifest whose single obligation has an invalid direction
(USER to DESIGNER) and no `expires_at` field. -/
def directionNoExpiryManifest : PyVal :=
  mkManifest goodEntities goodSystem goodOwnership goodConsent
    goodInconvenience
    (larr [dstr [("id", .pstr "o1"), ("from", .pstr "u"), ("to", .pstr "d"),
                 ("type", .pstr "X")]])

/-- A manifest whose single obligation targets the USER with type
INFORMATIONAL_DISCLOSURE and `consent_required = True`, but expires after the
consent expiry. -/
def userLateExpiryManifest : PyVal :=
  mkManifest goodEntities goodSystem goodOwnership goodConsent
    goodInconvenience
    (larr [dstr [("id", .pstr "o1"), ("from", .pstr "p"), ("to", .pstr "u"),
                 ("type", .pstr "INFORMATIONAL_DISCLOSURE"),
                 ("consent_required", .pbool true),
                 ("expires_at", .pstr "2031-01-01T00:00:00Z")]])

/-- A manifest with user burden -1 and beneficiary burden 0: the mean user
total is negative against a zero beneficiary mean. -/
def negativeBurdenManifest : PyVal :=
  mkManifest goodEntities goodSystem goodOwnership goodConsent
    (dstr [("model", dstr [("dimensions", larr [.pstr "TIME"])]),
           ("weights", dstr [("TIME", .pint 1)]),
           ("expected", larr [dstr [("entity", .pstr "u"), ("TIME", .pint (-1))],
                              dstr [("entity", .pstr "b"), ("TIME", .pint 0)]])])
    (larr [])

/-- A weight mapping keyed by the int 1 with value 1.0: numeric,
non-negative, summing to 1, but not string-keyed. -/
def intWeightsDict : PyDict := PyDict.ofList [(.pint 1, .pfloat 1)]

/-- A manifest whose weight mapping is keyed by the int 1 and whose declared
dimension list is `[1]`: the key set equals the dimension set and the values
are numeric, non-negative and sum to 1, yet the key is not a string. -/
def intKeyWeightsManifest : PyVal :=
  mkManifest goodEntities goodSystem goodOwnership goodConsent
    (dstr [("model", dstr [("dimensions", larr [.pint 1])]),
           ("weights", .pdict intWeightsDict),
           ("expected", larr [dstr [("entity", .pstr "u")],
                              dstr [("entity", .pstr "b")]])])
    (larr [])

/-- The baseline manifest with `consent_expires_at` replaced by a value. -/
def consentExpiryManifest (v : PyVal) : PyVal :=
  mkManifest goodEntities goodSystem goodOwnership
    (dstr [("consent_explicit", .pbool true),
           ("implied_consent_accepted", .pbool false),
           ("renegotiation_on_change", .pbool true),
           ("consent_expires_at", v)])
    goodInconvenience (larr [])

/-- The consent section of `consentExpiryManifest v` as a raw dict, for
claims about `dictFind?` on it. -/
def consentDictWith (v : PyVal) : PyDict :=
  PyDict.ofList [(.pstr "consent_explicit", .pbool true),
                 (.pstr "implied_consent_accepted", .pbool false),
                 (.pstr "renegotiation_on_change", .pbool true),
                 (.pstr "consent_expires_at", v)]

/-- The totals the pipeline computes for `negativeBurdenManifest`. -/
def negTotals : List (PyVal × ℚ) := [(.pstr "u", -1), (.pstr "b", 0)]

/-- A manifest with user burden 7/5 and beneficiary burden 1: the mean ratio
is 1.4 (within the 1.5 hard-fail bound) while the relative deviation is 2/7
(above the 0.15 symmetry tolerance). -/
def asymBurdenManifest : PyVal :=
  mkManifest goodEntities goodSystem goodOwnership goodConsent
    (dstr [("model", dstr [("dimensions", larr [.pstr "TIME"])]),
           ("weights", dstr [("TIME", .pint 1)]),
           ("expected",
            larr [dstr [("entity", .pstr "u"), ("TIME", .pfloat (mkRat 7 5))],
                  dstr [("entity", .pstr "b"), ("TIME", .pint 1)]])])
    (larr [])

/-- The totals the pipeline computes for `asymBurdenManifest`. -/
def asymTotals : List (PyVal × ℚ) := [(.pstr "u", mkRat 7 5), (.pstr "b", 1)]

/-- The baseline manifest with the single weight replaced by
`1 + 1e-9`: the weight sum deviates from 1 by exactly EPSILON. -/
def weightsBoundaryPassManifest : PyVal :=
  mkManifest goodEntities goodSystem goodOwnership goodConsent
    (dstr [("model", dstr [("dimensions", larr [.pstr "TIME"])]),
           ("weights",
            dstr [("TIME", .pfloat (mkRat 1000000001 1000000000))]),
           ("expected", larr [dstr [("entity", .pstr "u"), ("TIME", .pint 1)],
                              dstr [("entity", .pstr "b"), ("TIME", .pint 1)]])])
    (larr [])

/-- The baseline manifest with the single weight replaced by
`1 + 1.1e-9`: the weight sum deviates from 1 by more than EPSILON. -/
def weightsBoundaryFailManifest : PyVal :=
  mkManifest goodEntities goodSystem goodOwnership goodConsent
    (dstr [("model", dstr [("dimensions", larr [.pstr "TIME"])]),
           ("weights",
            dstr [("TIME", .pfloat (mkRat 10000000011 10000000000))]),
           ("expected", larr [dstr [("entity", .pstr "u"), ("TIME", .pint 1)],
                              dstr [("entity", .pstr "b"), ("TIME", .pint 1)]])])
    (larr [])

/-- An obligation with an invalid direction (USER to DESIGNER) and a
well-formed expiry, for instantiating the direction rule. -/
def dirObligation : PyDict :=
  PyDict.ofList [(.pstr "id", .pstr "o1"), (.pstr "from", .pstr "u"),
                 (.pstr "to", .pstr "d"), (.pstr "type", .pstr "X"),
                 (.pstr "expires_at", .pstr "2029-01-01T00:00:00Z")]

/-- An entity index resolving `u` to USER and `d` to DESIGNER. -/
def dirIndex : List (String × String) := [("u", "USER"), ("d", "DESIGNER")]

/-- A USER-targeted obligation of type MAINTENANCE with `consent_required`
exactly false and a well-formed expiry. -/
def coerciveObligation : PyDict :=
  PyDict.ofList [(.pstr "id", .pstr "o1"), (.pstr "from", .pstr "p"),
                 (.pstr "to", .pstr "u"), (.pstr "type", .pstr "MAINTENANCE"),
                 (.pstr "consent_required", .pbool false),
                 (.pstr "expires_at", .pstr "2029-01-01T00:00:00Z")]

/-- An entity index resolving `p` to PRODUCT and `u` to USER. -/
def userIndex : List (String × String) := [("p", "PRODUCT"), ("u", "USER")]

/-- A manifest violating both a structural rule (its `obligations` top-level
key is missing) and a fairness rule (user burden 2 against beneficiary
burden 1, a ratio of 2 > 1.5). -/
def structuralAndFairnessManifest : PyVal :=
  dstr [("entities", goodEntities), ("system", goodSystem),
        ("ownership", goodOwnership), ("consent", goodConsent),
        ("inconvenience",
         dstr [("model", dstr [("dimensions", larr [.pstr "TIME"])]),
               ("weights", dstr [("TIME", .pint 1)]),
               ("expected",
                larr [dstr [("entity", .pstr "u"), ("TIME", .pint 2)],
                      dstr [("entity", .pstr "b"), ("TIME", .pint 1)]])])]

/-- Outcome of one pipeline stage: pass, or fail with a reason code. -/
inductive StageOutcome : Type where
  | pass : StageOutcome
  | fail : String → StageOutcome
  deriving DecidableEq

/-- View a stage's `(ok, err)` pair as a `StageOutcome`. -/
def outcome (r : Bool × String) : StageOutcome :=
  if r.1 then .pass else .fail r.2

/-- Map a fallible stage result to a fallible outcome. -/
def exMapOutcome (x : Except PyErr (Bool × String)) :
    Except PyErr StageOutcome :=
  match x with
  | .error e => .error e
  | .ok r => .ok (outcome r)

/-- Stage 1 of the pipeline, computed standalone. -/
def stage_parse (m : PyVal) : Except PyErr StageOutcome :=
  .ok (outcome (strict_parse_manifest m))

/-- Stage 2 of the pipeline, computed standalone. -/
def stage_schema (m : PyVal) : Except PyErr StageOutcome :=
  exMapOutcome (strict_schema_completeness m)

/-- Stage 3 of the pipeline, computed standalone. -/
def stage_entity (m : PyVal) : Except PyErr StageOutcome :=
  match build_entity_index m with
  | .error e => .error e
  | .ok t => .ok (outcome (t.1, t.2.1))

/-- Stage 3b of the pipeline, computed standalone (it recomputes the entity
index it consumes). -/
def stage_refint (m : PyVal) : Except PyErr StageOutcome :=
  match build_entity_index m with
  | .error e => .error e
  | .ok t => exMapOutcome (strict_referential_integrity m t.2.2)

/-- Stage 4 of the pipeline, computed standalone. -/
def stage_align (m : PyVal) : Except PyErr StageOutcome :=
  exMapOutcome (verify_user_beneficiary_alignment m)

/-- Stage 5 of the pipeline, computed standalone. -/
def stage_ownership (m : PyVal) : Except PyErr StageOutcome :=
  exMapOutcome (verify_ownership m)

/-- Stage 6 of the pipeline, computed standalone. -/
def stage_consent (m : PyVal) : Except PyErr StageOutcome :=
  exMapOutcome (verify_consent m)

/-- Stage 7 of the pipeline, computed standalone. -/
def stage_weights (m : PyVal) : Except PyErr StageOutcome :=
  exMapOutcome (verify_inconvenience_weights m)

/-- Stage 8 of the pipeline, computed standalone. -/
def stage_coverage (m : PyVal) : Except PyErr StageOutcome :=
  exMapOutcome (strict_inconvenience_coverage m)

/-- Stage 9 of the pipeline, computed standalone. -/
def stage_totals (m : PyVal) : Except PyErr StageOutcome :=
  match compute_inconvenience_totals m with
  | .error e => .error e
  | .ok t => .ok (outcome (t.1, t.2.1))

/-- Stage 10 of the pipeline, computed standalone (it recomputes the totals
it consumes). -/
def stage_ratio (m : PyVal) : Except PyErr StageOutcome :=
  match compute_inconvenience_totals m with
  | .error e => .error e
  | .ok t => exMapOutcome (check_corruption_ratio m t.2.2)

/-- Stage 11 of the pipeline, computed standalone. -/
def stage_symmetry (m : PyVal) : Except PyErr StageOutcome :=
  match compute_inconvenience_totals m with
  | .error e => .error e
  | .ok t => exMapOutcome (check_symmetry_tolerance m t.2.2)

/-- Stage 12 of the pipeline, computed standalone. -/
def stage_obligations (m : PyVal) : Except PyErr StageOutcome :=
  match build_entity_index m with
  | .error e => .error e
  | .ok t => exMapOutcome (strict_obligation_enforcement m t.2.2)

/-- The validator's stages as an explicit ordered list, each evaluated on the
manifest independently. -/
def pipelineStages (m : PyVal) : List (Except PyErr StageOutcome) :=
  [stage_parse m, stage_schema m, stage_entity m, stage_refint m,
   stage_align m, stage_ownership m, stage_consent m, stage_weights m,
   stage_coverage m, stage_totals m, stage_ratio m, stage_symmetry m,
   stage_obligations m]

/-- Short-circuiting fold over stage outcomes: the first stage that does not
pass (its failure code, or the exception it raises) decides; if every stage
passes, the whole pipeline passes. -/
def firstOutcome : List (Except PyErr StageOutcome) → Except PyErr StageOutcome
  | [] => .ok .pass
  | .ok .pass :: rest => firstOutcome rest
  | x :: _ => x

/-- Read a pipeline outcome back as the validator's result. -/
def interpOutcome (x : Except PyErr StageOutcome) : Except PyErr VResult :=
  match x with
  | .error e => .error e
  | .ok .pass => .ok ⟨"ADMISSIBLE", none⟩
  | .ok (.fail c) => .ok ⟨"CORRUPTED", some c⟩

theorem parse_code {m : PyVal} {c : String}
    (h : strict_parse_manifest m = (false, c)) : c = R000_PARSE_FAILURE := by
  unfold strict_parse_manifest at h
  iterate 14 (all_goals (try (beta_reduce at h)); all_goals (try (split at h)); all_goals (try simp_all))

theorem schema_pre_code {s o cn : PyVal} {c : String}
    (h : schema_sys_own_consent s o cn = .ok (some c)) :
    c = R000_PARSE_FAILURE := by
  unfold schema_sys_own_consent exBind at h
  iterate 26 (all_goals (try (beta_reduce at h)); all_goals (try (split at h)); all_goals (try simp_all))

theorem schema_inc_code {inc : PyVal} {c : String}
    (h : schema_inconvenience inc = .ok (some c)) : c = R000_PARSE_FAILURE := by
  unfold schema_inconvenience exBind at h
  iterate 26 (all_goals (try (beta_reduce at h)); all_goals (try (split at h)); all_goals (try simp_all))

theorem schema_code {m : PyVal} {c : String}
    (h : strict_schema_completeness m = .ok (false, c)) :
    c = R000_PARSE_FAILURE ∨ c = R018_CONSENT_EXPIRY_MISSING := by
  unfold strict_schema_completeness exBind at h
  iterate 14 (all_goals (try (beta_reduce at h)); all_goals (try (split at h)); all_goals (try simp_all))
  all_goals
    (first
      | exact Or.inl (schema_pre_code (by assumption))
      | exact Or.inl (schema_inc_code (by assumption))
      | simp_all)

theorem build_entity_go_code (l : List PyVal) :
    ∀ (acc idx : List (String × String)) (c : String),
      build_entity_go l acc = .ok (false, c, idx) →
      c = R017_ROLE_INTEGRITY_FAIL := by
  induction l with
  | nil => intro acc idx c h; simp [build_entity_go] at h
  | cons e rest ih =>
    intro acc idx c h
    unfold build_entity_go at h
    iterate 14 (all_goals (try (beta_reduce at h)); all_goals (try (split at h)); all_goals (try (exact ih _ _ _ h)); all_goals (try simp_all))

theorem entity_code {m : PyVal} {c : String} {idx : List (String × String)}
    (h : build_entity_index m = .ok (false, c, idx)) :
    c = R017_ROLE_INTEGRITY_FAIL := by
  unfold build_entity_index exBind at h
  iterate 14 (all_goals (try (beta_reduce at h)); all_goals (try (split at h)); all_goals (try (exact build_entity_go_code _ _ _ _ h)); all_goals (try simp_all))

theorem refint_ids_code (idx : List (String × String)) (l : List PyVal)
    {c : String} (h : refint_ids idx l = some c) :
    c = R017_ROLE_INTEGRITY_FAIL := by
  induction l with
  | nil => simp [refint_ids] at h
  | cons v rest ih =>
    unfold refint_ids at h
    iterate 14 (all_goals (try (beta_reduce at h)); all_goals (try (split at h)); all_goals (try (exact ih h)); all_goals (try simp_all))

theorem refint_obligations_code (idx : List (String × String))
    (l : List PyVal) {c : String} (h : refint_obligations idx l = some c) :
    c = R000_PARSE_FAILURE ∨ c = R017_ROLE_INTEGRITY_FAIL := by
  induction l with
  | nil => simp [refint_obligations] at h
  | cons o rest ih =>
    unfold refint_obligations at h
    iterate 14 (all_goals (try (beta_reduce at h)); all_goals (try (split at h)); all_goals (try (exact ih h)); all_goals (try simp_all))

theorem refint_burdens_code (idx : List (String × String))
    (l : List PyVal) {c : String} (h : refint_burdens idx l = some c) :
    c = R000_PARSE_FAILURE ∨ c = R017_ROLE_INTEGRITY_FAIL := by
  induction l with
  | nil => simp [refint_burdens] at h
  | cons b rest ih =>
    unfold refint_burdens at h
    iterate 14 (all_goals (try (beta_reduce at h)); all_goals (try (split at h)); all_goals (try (exact ih h)); all_goals (try simp_all))

theorem refint_code {m : PyVal} {idx : List (String × String)} {c : String}
    (h : strict_referential_integrity m idx = .ok (false, c)) :
    c = R000_PARSE_FAILURE ∨ c = R017_ROLE_INTEGRITY_FAIL := by
  unfold strict_referential_integrity exBind at h
  iterate 14 (all_goals (try (beta_reduce at h)); all_goals (try (split at h)); all_goals (try simp_all))
  all_goals
    (first
      | exact Or.inr (refint_ids_code _ _ (by assumption))
      | exact refint_obligations_code _ _ (by assumption)
      | exact refint_burdens_code _ _ (by assumption)
      | simp_all)

theorem align_code {m : PyVal} {c : String}
    (h : verify_user_beneficiary_alignment m = .ok (false, c)) :
    c = R001_USER_BENEFICIARY_MISMATCH := by
  unfold verify_user_beneficiary_alignment exBind at h
  iterate 14 (all_goals (try (beta_reduce at h)); all_goals (try (split at h)); all_goals (try simp_all))

theorem ownership_code {m : PyVal} {c : String}
    (h : verify_ownership m = .ok (false, c)) :
    c = R002_OWNERSHIP_NOT_EXPLICIT ∨ c = R003_CONTROL_DIRECTION_INVALID := by
  unfold verify_ownership exBind at h
  iterate 14 (all_goals (try (beta_reduce at h)); all_goals (try (split at h)); all_goals (try simp_all))

theorem consent_code {m : PyVal} {c : String}
    (h : verify_consent m = .ok (false, c)) :
    c = R004_CONSENT_NOT_EXPLICIT ∨ c = R005_IMPLIED_CONSENT_PRESENT ∨
    c = R006_RENEGOTIATION_DISABLED ∨ c = R018_CONSENT_EXPIRY_MISSING := by
  unfold verify_consent exBind at h
  iterate 14 (all_goals (try (beta_reduce at h)); all_goals (try (split at h)); all_goals (try simp_all))

theorem weights_code {m : PyVal} {c : String}
    (h : verify_inconvenience_weights m = .ok (false, c)) :
    c = R007_WEIGHTS_INVALID := by
  unfold verify_inconvenience_weights exBind at h
  iterate 14 (all_goals (try (beta_reduce at h)); all_goals (try (split at h)); all_goals (try simp_all))

theorem coverage_loop_code (dims : List PyVal) (l : List PyVal) {c : String}
    (h : coverage_loop dims l = .ok (false, c)) :
    c = R000_PARSE_FAILURE ∨ c = R008_BURDEN_MISSING := by
  induction l with
  | nil => simp [coverage_loop] at h
  | cons b rest ih =>
    unfold coverage_loop exBind at h
    iterate 14 (all_goals (try (beta_reduce at h)); all_goals (try (split at h)); all_goals (try (exact ih h)); all_goals (try simp_all))

theorem coverage_code {m : PyVal} {c : String}
    (h : strict_inconvenience_coverage m = .ok (false, c)) :
    c = R000_PARSE_FAILURE ∨ c = R008_BURDEN_MISSING := by
  unfold strict_inconvenience_coverage exBind at h
  iterate 14 (all_goals (try (beta_reduce at h)); all_goals (try (split at h)); all_goals (try (exact coverage_loop_code _ _ h)); all_goals (try simp_all))

theorem ratio_code {m : PyVal} {totals : List (PyVal × ℚ)} {c : String}
    (h : check_corruption_ratio m totals = .ok (false, c)) :
    c = R009_INCONVENIENCE_RATIO_FAIL := by
  unfold check_corruption_ratio exBind at h
  iterate 14 (all_goals (try (beta_reduce at h)); all_goals (try (split at h)); all_goals (try simp_all))

theorem symmetry_code {m : PyVal} {totals : List (PyVal × ℚ)} {c : String}
    (h : check_symmetry_tolerance m totals = .ok (false, c)) :
    c = R010_SYMMETRY_TOLERANCE_FAIL := by
  unfold check_symmetry_tolerance exBind at h
  iterate 14 (all_goals (try (beta_reduce at h)); all_goals (try (split at h)); all_goals (try simp_all))

theorem obligation_step_code {e : Int} {idx : List (String × String)}
    {o : PyVal} {c : String} (h : obligation_step e idx o = .ok (some c)) :
    c = R000_PARSE_FAILURE ∨ c = R013_EXPIRY_MISSING ∨
    c = R012_CONSENT_RULES_VIOLATED ∨ c = R011_OBLIGATION_DIRECTION_INVALID ∨
    c = R014_USER_COERCIVE_OBLIGATION := by
  unfold obligation_step exBind at h
  iterate 14 (all_goals (try (beta_reduce at h)); all_goals (try (split at h)); all_goals (try simp_all))

theorem obligations_loop_code {e : Int} {idx : List (String × String)}
    (l : List PyVal) {c : String}
    (h : obligations_loop e idx l = .ok (false, c)) :
    c = R000_PARSE_FAILURE ∨ c = R013_EXPIRY_MISSING ∨
    c = R012_CONSENT_RULES_VIOLATED ∨ c = R011_OBLIGATION_DIRECTION_INVALID ∨
    c = R014_USER_COERCIVE_OBLIGATION := by
  induction l with
  | nil => simp [obligations_loop] at h
  | cons o rest ih =>
    unfold obligations_loop exBind at h
    iterate 14 (all_goals (try (beta_reduce at h)); all_goals (try (split at h)); all_goals (try (exact ih h)); all_goals (try (exact obligation_step_code (by assumption))); all_goals (try simp_all))
    all_goals (try (exact obligation_step_code (by assumption)))

theorem obligations_code {m : PyVal} {idx : List (String × String)}
    {c : String} (h : strict_obligation_enforcement m idx = .ok (false, c)) :
    c = R018_CONSENT_EXPIRY_MISSING ∨ c = R000_PARSE_FAILURE ∨
    c = R013_EXPIRY_MISSING ∨ c = R012_CONSENT_RULES_VIOLATED ∨
    c = R011_OBLIGATION_DIRECTION_INVALID ∨
    c = R014_USER_COERCIVE_OBLIGATION := by
  unfold strict_obligation_enforcement exBind at h
  iterate 14 (all_goals (try (beta_reduce at h)); all_goals (try (split at h)); all_goals (try (exact Or.inr (obligations_loop_code _ h))); all_goals (try simp_all))

theorem parse_code_mem {m : PyVal} {c : String}
    (h : strict_parse_manifest m = (false, c)) : c ∈ allReasonCodes := by
  rcases parse_code h with rfl; simp [allReasonCodes]

theorem schema_code_mem {m : PyVal} {c : String}
    (h : strict_schema_completeness m = .ok (false, c)) :
    c ∈ allReasonCodes := by
  rcases schema_code h with rfl | rfl <;> simp [allReasonCodes]

theorem entity_code_mem {m : PyVal} {c : String}
    {idx : List (String × String)}
    (h : build_entity_index m = .ok (false, c, idx)) : c ∈ allReasonCodes := by
  rcases entity_code h with rfl; simp [allReasonCodes]

theorem refint_code_mem {m : PyVal} {idx : List (String × String)}
    {c : String} (h : strict_referential_integrity m idx = .ok (false, c)) :
    c ∈ allReasonCodes := by
  rcases refint_code h with rfl | rfl <;> simp [allReasonCodes]

theorem align_code_mem {m : PyVal} {c : String}
    (h : verify_user_beneficiary_alignment m = .ok (false, c)) :
    c ∈ allReasonCodes := by
  rcases align_code h with rfl; simp [allReasonCodes]

theorem ownership_code_mem {m : PyVal} {c : String}
    (h : verify_ownership m = .ok (false, c)) : c ∈ allReasonCodes := by
  rcases ownership_code h with rfl | rfl <;> simp [allReasonCodes]

theorem consent_code_mem {m : PyVal} {c : String}
    (h : verify_consent m = .ok (false, c)) : c ∈ allReasonCodes := by
  rcases consent_code h with rfl | rfl | rfl | rfl <;> simp [allReasonCodes]

theorem weights_code_mem {m : PyVal} {c : String}
    (h : verify_inconvenience_weights m = .ok (false, c)) :
    c ∈ allReasonCodes := by
  rcases weights_code h with rfl; simp [allReasonCodes]

theorem coverage_code_mem {m : PyVal} {c : String}
    (h : strict_inconvenience_coverage m = .ok (false, c)) :
    c ∈ allReasonCodes := by
  rcases coverage_code h with rfl | rfl <;> simp [allReasonCodes]

theorem r008_mem : R008_BURDEN_MISSING ∈ allReasonCodes := by
  simp [allReasonCodes]

theorem ratio_code_mem {m : PyVal} {totals : List (PyVal × ℚ)} {c : String}
    (h : check_corruption_ratio m totals = .ok (false, c)) :
    c ∈ allReasonCodes := by
  rcases ratio_code h with rfl; simp [allReasonCodes]

theorem symmetry_code_mem {m : PyVal} {totals : List (PyVal × ℚ)} {c : String}
    (h : check_symmetry_tolerance m totals = .ok (false, c)) :
    c ∈ allReasonCodes := by
  rcases symmetry_code h with rfl; simp [allReasonCodes]

theorem obligations_code_mem {m : PyVal} {idx : List (String × String)}
    {c : String} (h : strict_obligation_enforcement m idx = .ok (false, c)) :
    c ∈ allReasonCodes := by
  rcases obligations_code h with rfl | rfl | rfl | rfl | rfl | rfl <;>
    simp [allReasonCodes]

/-- Every result actually returned by `validate` is either ADMISSIBLE with no
code or CORRUPTED with one of the seventeen stable reason codes. -/
theorem validate_ok_cases (m : PyVal) (r : VResult) (h : validate m = .ok r) :
    r = ⟨"ADMISSIBLE", none⟩ ∨
    ∃ c, r = ⟨"CORRUPTED", some c⟩ ∧ c ∈ allReasonCodes := by
  unfold validate exBind at h
  iterate 30 (all_goals (try (beta_reduce at h)); all_goals (try (split at h)))
  all_goals (try (injection h with h2))
  all_goals (try (subst h2))
  all_goals
    (first
      | exact Or.inl rfl
      | exact Or.inr ⟨_, rfl, parse_code_mem (by assumption)⟩
      | exact Or.inr ⟨_, rfl, schema_code_mem (by assumption)⟩
      | exact Or.inr ⟨_, rfl, entity_code_mem (by assumption)⟩
      | exact Or.inr ⟨_, rfl, refint_code_mem (by assumption)⟩
      | exact Or.inr ⟨_, rfl, align_code_mem (by assumption)⟩
      | exact Or.inr ⟨_, rfl, ownership_code_mem (by assumption)⟩
      | exact Or.inr ⟨_, rfl, consent_code_mem (by assumption)⟩
      | exact Or.inr ⟨_, rfl, weights_code_mem (by assumption)⟩
      | exact Or.inr ⟨_, rfl, coverage_code_mem (by assumption)⟩
      | exact Or.inr ⟨_, rfl, r008_mem⟩
      | exact Or.inr ⟨_, rfl, ratio_code_mem (by assumption)⟩
      | exact Or.inr ⟨_, rfl, symmetry_code_mem (by assumption)⟩
      | exact Or.inr ⟨_, rfl, obligations_code_mem (by assumption)⟩
      | simp_all)

/-- The orchestrator equals the short-circuiting fold over the ordered stage
list: `validate` runs the thirteen stages in the fixed order and returns the
first non-passing stage's outcome. -/
theorem validate_eq_pipeline (m : PyVal) :
    validate m = interpOutcome (firstOutcome (pipelineStages m)) := by
  rcases hp : strict_parse_manifest m with ⟨pb, pe⟩
  cases pb
  · simp [validate, pipelineStages, stage_parse, hp, outcome, firstOutcome,
      interpOutcome]
  · rcases h2 : strict_schema_completeness m with e2 | ⟨sb, se⟩
    · simp [validate, pipelineStages, stage_parse, stage_schema, hp, h2,
        outcome, firstOutcome, interpOutcome, exMapOutcome, exBind]
    cases sb
    · simp [validate, pipelineStages, stage_parse, stage_schema, hp, h2,
        outcome, firstOutcome, interpOutcome, exMapOutcome, exBind]
    rcases h3 : build_entity_index m with e3 | ⟨eb, ee, idx⟩
    · simp [validate, pipelineStages, stage_parse, stage_schema, stage_entity,
        hp, h2, h3, outcome, firstOutcome, interpOutcome, exMapOutcome, exBind]
    cases eb
    · simp [validate, pipelineStages, stage_parse, stage_schema, stage_entity,
        hp, h2, h3, outcome, firstOutcome, interpOutcome, exMapOutcome, exBind]
    rcases h3b : strict_referential_integrity m idx with e3b | ⟨rb, re⟩
    · simp [validate, pipelineStages, stage_parse, stage_schema, stage_entity,
        stage_refint, hp, h2, h3, h3b, outcome, firstOutcome, interpOutcome,
        exMapOutcome, exBind]
    cases rb
    · simp [validate, pipelineStages, stage_parse, stage_schema, stage_entity,
        stage_refint, hp, h2, h3, h3b, outcome, firstOutcome, interpOutcome,
        exMapOutcome, exBind]
    rcases h4 : verify_user_beneficiary_alignment m with e4 | ⟨ab, ae⟩
    · simp [validate, pipelineStages, stage_parse, stage_schema, stage_entity,
        stage_refint, stage_align, hp, h2, h3, h3b, h4, outcome, firstOutcome,
        interpOutcome, exMapOutcome, exBind]
    cases ab
    · simp [validate, pipelineStages, stage_parse, stage_schema, stage_entity,
        stage_refint, stage_align, hp, h2, h3, h3b, h4, outcome, firstOutcome,
        interpOutcome, exMapOutcome, exBind]
    rcases h5 : verify_ownership m with e5 | ⟨ob, oe⟩
    · simp [validate, pipelineStages, stage_parse, stage_schema, stage_entity,
        stage_refint, stage_align, stage_ownership, hp, h2, h3, h3b, h4, h5,
        outcome, firstOutcome, interpOutcome, exMapOutcome, exBind]
    cases ob
    · simp [validate, pipelineStages, stage_parse, stage_schema, stage_entity,
        stage_refint, stage_align, stage_ownership, hp, h2, h3, h3b, h4, h5,
        outcome, firstOutcome, interpOutcome, exMapOutcome, exBind]
    rcases h6 : verify_consent m with e6 | ⟨cb, ce⟩
    · simp [validate, pipelineStages, stage_parse, stage_schema, stage_entity,
        stage_refint, stage_align, stage_ownership, stage_consent, hp, h2, h3,
        h3b, h4, h5, h6, outcome, firstOutcome, interpOutcome, exMapOutcome,
        exBind]
    cases cb
    · simp [validate, pipelineStages, stage_parse, stage_schema, stage_entity,
        stage_refint, stage_align, stage_ownership, stage_consent, hp, h2, h3,
        h3b, h4, h5, h6, outcome, firstOutcome, interpOutcome, exMapOutcome,
        exBind]
    rcases h7 : verify_inconvenience_weights m with e7 | ⟨wb, we⟩
    · simp [validate, pipelineStages, stage_parse, stage_schema, stage_entity,
        stage_refint, stage_align, stage_ownership, stage_consent,
        stage_weights, hp, h2, h3, h3b, h4, h5, h6, h7, outcome, firstOutcome,
        interpOutcome, exMapOutcome, exBind]
    cases wb
    · simp [validate, pipelineStages, stage_parse, stage_schema, stage_entity,
        stage_refint, stage_align, stage_ownership, stage_consent,
        stage_weights, hp, h2, h3, h3b, h4, h5, h6, h7, outcome, firstOutcome,
        interpOutcome, exMapOutcome, exBind]
    rcases h8 : strict_inconvenience_coverage m with e8 | ⟨gb, ge⟩
    · simp [validate, pipelineStages, stage_parse, stage_schema, stage_entity,
        stage_refint, stage_align, stage_ownership, stage_consent,
        stage_weights, stage_coverage, hp, h2, h3, h3b, h4, h5, h6, h7, h8,
        outcome, firstOutcome, interpOutcome, exMapOutcome, exBind]
    cases gb
    · simp [validate, pipelineStages, stage_parse, stage_schema, stage_entity,
        stage_refint, stage_align, stage_ownership, stage_consent,
        stage_weights, stage_coverage, hp, h2, h3, h3b, h4, h5, h6, h7, h8,
        outcome, firstOutcome, interpOutcome, exMapOutcome, exBind]
    rcases h9 : compute_inconvenience_totals m with e9 | ⟨tb, te, totals⟩
    · simp [validate, pipelineStages, stage_parse, stage_schema, stage_entity,
        stage_refint, stage_align, stage_ownership, stage_consent,
        stage_weights, stage_coverage, stage_totals, hp, h2, h3, h3b, h4, h5,
        h6, h7, h8, h9, outcome, firstOutcome, interpOutcome, exMapOutcome,
        exBind]
    cases tb
    · have hte : te = R008_BURDEN_MISSING := by
        unfold compute_inconvenience_totals exBind at h9
        iterate 14 (all_goals (try (beta_reduce at h9)); all_goals (try (split at h9)); all_goals (try simp_all))
      subst hte
      simp [validate, pipelineStages, stage_parse, stage_schema, stage_entity,
        stage_refint, stage_align, stage_ownership, stage_consent,
        stage_weights, stage_coverage, stage_totals, hp, h2, h3, h3b, h4, h5,
        h6, h7, h8, h9, outcome, firstOutcome, interpOutcome, exMapOutcome,
        exBind]
    rcases h10 : check_corruption_ratio m totals with e10 | ⟨xb, xe⟩
    · simp [validate, pipelineStages, stage_parse, stage_schema, stage_entity,
        stage_refint, stage_align, stage_ownership, stage_consent,
        stage_weights, stage_coverage, stage_totals, stage_ratio, hp, h2, h3,
        h3b, h4, h5, h6, h7, h8, h9, h10, outcome, firstOutcome,
        interpOutcome, exMapOutcome, exBind]
    cases xb
    · simp [validate, pipelineStages, stage_parse, stage_schema, stage_entity,
        stage_refint, stage_align, stage_ownership, stage_consent,
        stage_weights, stage_coverage, stage_totals, stage_ratio, hp, h2, h3,
        h3b, h4, h5, h6, h7, h8, h9, h10, outcome, firstOutcome,
        interpOutcome, exMapOutcome, exBind]
    rcases h11 : check_symmetry_tolerance m totals with e11 | ⟨yb, ye⟩
    · simp [validate, pipelineStages, stage_parse, stage_schema, stage_entity,
        stage_refint, stage_align, stage_ownership, stage_consent,
        stage_weights, stage_coverage, stage_totals, stage_ratio,
        stage_symmetry, hp, h2, h3, h3b, h4, h5, h6, h7, h8, h9, h10, h11,
        outcome, firstOutcome, interpOutcome, exMapOutcome, exBind]
    cases yb
    · simp [validate, pipelineStages, stage_parse, stage_schema, stage_entity,
        stage_refint, stage_align, stage_ownership, stage_consent,
        stage_weights, stage_coverage, stage_totals, stage_ratio,
        stage_symmetry, hp, h2, h3, h3b, h4, h5, h6, h7, h8, h9, h10, h11,
        outcome, firstOutcome, interpOutcome, exMapOutcome, exBind]
    rcases h12 : strict_obligation_enforcement m idx with e12 | ⟨zb, ze⟩ <;>
      [skip; cases zb] <;>
      simp [validate, pipelineStages, stage_parse, stage_schema, stage_entity,
        stage_refint, stage_align, stage_ownership, stage_consent,
        stage_weights, stage_coverage, stage_totals, stage_ratio,
        stage_symmetry, stage_obligations, hp, h2, h3, h3b, h4, h5, h6, h7,
        h8, h9, h10, h11, h12, outcome, firstOutcome, interpOutcome,
        exMapOutcome, exBind]

/-- A stage list passes the fold exactly when every stage passes. -/
theorem firstOutcome_pass_iff (l : List (Except PyErr StageOutcome)) :
    firstOutcome l = .ok .pass ↔ ∀ x ∈ l, x = .ok .pass := by
  induction l with
  | nil => simp [firstOutcome]
  | cons x rest ih =>
    rcases x with e | s
    · simp [firstOutcome]
    · rcases s with _ | c
      · simp [firstOutcome, ih]
      · simp [firstOutcome]

/-- A failing structural gate decides the run: `validate` reports the parse
code no matter what any later stage would do. -/
theorem parse_fail_decides (m : PyVal) (c : String)
    (h : strict_parse_manifest m = (false, c)) :
    validate m = .ok ⟨"CORRUPTED", some c⟩ := by
  unfold validate
  rw [h]

/-- A key found in a dict makes the corresponding `in` test succeed. -/
theorem inOp_of_find {cd : PyDict} {k : String} {v : PyVal}
    (hv : dictFind? cd (.pstr k) = some v) : inOp k (.pdict cd) = .ok true := by
  unfold dictFind? at hv
  rcases hf : cd.entries.find? (fun e => pyEq e.1 (.pstr k)) with _ | e
  · rw [hf] at hv; simp at hv
  · have hp := List.find?_some hf
    have hm := List.mem_of_find?_eq_some hf
    have hany : (cd.entries.any (fun e2 => pyEq e2.1 (.pstr k))) = true :=
      List.any_eq_true.mpr ⟨e, hm, hp⟩
    simp [inOp, hany]

/-- A key found in a dict makes `getItem` return the stored value. -/
theorem getItem_of_find {cd : PyDict} {k : String} {v : PyVal}
    (hv : dictFind? cd (.pstr k) = some v) :
    getItem (.pdict cd) k = .ok v := by
  simp [getItem, hv]

/-- If the structural gate and the pre-expiry schema checks pass while the
consent section stores a falsy `consent_expires_at`, the run is CORRUPTED
with `R018_CONSENT_EXPIRY_MISSING` — the truthiness test fires on a present
value exactly as on an absent one, and PARSE_FAILURE is never reported. -/
theorem falsy_consent_expiry_r018 (m system ownership inc : PyVal)
    (cd : PyDict) (v : PyVal) (hparse : strict_parse_manifest m = (true, ""))
    (hsys : getItem m "system" = .ok system)
    (hown : getItem m "ownership" = .ok ownership)
    (hcons : getItem m "consent" = .ok (.pdict cd))
    (hinc : getItem m "inconvenience" = .ok inc)
    (hpre : schema_sys_own_consent system ownership (.pdict cd) = .ok none)
    (hv : dictFind? cd (.pstr "consent_expires_at") = some v)
    (hfalsy : pyTruthy v = false) :
    validate m = .ok ⟨"CORRUPTED", some R018_CONSENT_EXPIRY_MISSING⟩ := by
  have hschema : strict_schema_completeness m =
      .ok (false, R018_CONSENT_EXPIRY_MISSING) := by
    simp [strict_schema_completeness, exBind, hsys, hown, hcons, hinc, hpre,
      inOp_of_find hv, getItem_of_find hv, hfalsy]
  simp [validate, exBind, hparse, hschema]

/-- If an obligation record has its required fields, a present and parseable
expiry, and endpoints resolving to a role pair outside the allowed direction
table, the per-obligation check fails with
`R011_OBLIGATION_DIRECTION_INVALID`, regardless of its remaining fields. -/
theorem obligation_step_bad_direction (cexp e : Int)
    (idx : List (String × String)) (od : PyDict) (rf rt : String)
    (hid : hasKeyStr od "id" = true) (hfrom : hasKeyStr od "from" = true)
    (hto : hasKeyStr od "to" = true) (htype : hasKeyStr od "type" = true)
    (hexp : pyTruthy (dictGetD od "expires_at") = true)
    (hparse : parse_timestamp (dictGetD od "expires_at") = some e)
    (hrf : indexLookup idx (dictGetD od "from") = .ok rf)
    (hrt : indexLookup idx (dictGetD od "to") = .ok rt)
    (hdir : ALLOWED_OBLIGATION_DIRECTIONS.contains (rf, rt) = false) :
    obligation_step cexp idx (.pdict od) =
      .ok (some R011_OBLIGATION_DIRECTION_INVALID) := by
  simp at hdir
  simp [obligation_step, exBind, hid, hfrom, hto, htype, hexp, hparse, hrf,
    hrt, hdir]

/-- The enforcement loop reports the first obligation's failure: with a
direction-violating obligation first, the stage fails with
`R011_OBLIGATION_DIRECTION_INVALID`. -/
theorem obligations_loop_bad_direction (cexp e : Int)
    (idx : List (String × String)) (od : PyDict) (rf rt : String)
    (rest : List PyVal)
    (hid : hasKeyStr od "id" = true) (hfrom : hasKeyStr od "from" = true)
    (hto : hasKeyStr od "to" = true) (htype : hasKeyStr od "type" = true)
    (hexp : pyTruthy (dictGetD od "expires_at") = true)
    (hparse : parse_timestamp (dictGetD od "expires_at") = some e)
    (hrf : indexLookup idx (dictGetD od "from") = .ok rf)
    (hrt : indexLookup idx (dictGetD od "to") = .ok rt)
    (hdir : ALLOWED_OBLIGATION_DIRECTIONS.contains (rf, rt) = false) :
    obligations_loop cexp idx (.pdict od :: rest) =
      .ok (false, R011_OBLIGATION_DIRECTION_INVALID) := by
  simp [obligations_loop, exBind,
    obligation_step_bad_direction cexp e idx od rf rt hid hfrom hto htype
      hexp hparse hrf hrt hdir]

/-- For an obligation targeting a USER entity whose earlier checks pass
(fields present, expiry present and parseable, direction allowed, consent
binding not violated), the per-obligation check passes exactly when the type
is INFORMATIONAL_DISCLOSURE and `consent_required` is exactly `False`, and
otherwise fails with `R014_USER_COERCIVE_OBLIGATION`. -/
theorem obligation_step_user_rule (cexp e : Int)
    (idx : List (String × String)) (od : PyDict) (rf : String)
    (hid : hasKeyStr od "id" = true) (hfrom : hasKeyStr od "from" = true)
    (hto : hasKeyStr od "to" = true) (htype : hasKeyStr od "type" = true)
    (hexp : pyTruthy (dictGetD od "expires_at") = true)
    (hparse : parse_timestamp (dictGetD od "expires_at") = some e)
    (hrf : indexLookup idx (dictGetD od "from") = .ok rf)
    (hrt : indexLookup idx (dictGetD od "to") = .ok "USER")
    (hdir : ALLOWED_OBLIGATION_DIRECTIONS.contains (rf, "USER") = true)
    (hbind : (isTrueVal (dictGetD od "consent_required") &&
      decide (e > cexp)) = false) :
    obligation_step cexp idx (.pdict od) =
      .ok (if pyEq (dictGetD od "type") (.pstr "INFORMATIONAL_DISCLOSURE") &&
              isFalseVal (dictGetD od "consent_required") then none
           else some R014_USER_COERCIVE_OBLIGATION) := by
  simp at hdir
  simp only [Bool.and_eq_false_iff, decide_eq_false_iff_not, not_lt] at hbind
  rcases ht : pyEq (dictGetD od "type") (.pstr "INFORMATIONAL_DISCLOSURE") with _ | _ <;>
    rcases hcr : isFalseVal (dictGetD od "consent_required") with _ | _ <;>
    rcases hbind with hb | hb <;>
    simp [obligation_step, exBind, hid, hfrom, hto, htype, hexp, hparse, hrf,
      hrt, hdir, hb, ht, hcr]

/-- Characterization of `_check_corruption_ratio`: with an empty user or
beneficiary population the stage fails; otherwise it passes exactly when
either the beneficiary mean is zero and the user mean is not positive, or
the beneficiary mean is non-zero and the ratio of the means does not exceed
the hard-fail constant (so a ratio of exactly 1.5 passes), failing with
`R009_INCONVENIENCE_RATIO_FAIL` in every other case. -/
theorem check_corruption_ratio_spec (m : PyVal) (totals : List (PyVal × ℚ))
    (userIds benIds : List PyVal)
    (hu : roleIds m "USER" = .ok userIds)
    (hb : roleIds m "BENEFICIARY" = .ok benIds) :
    ((userIds = [] ∨ benIds = []) →
      check_corruption_ratio m totals =
        .ok (false, R009_INCONVENIENCE_RATIO_FAIL)) ∧
    (userIds ≠ [] → benIds ≠ [] →
      (check_corruption_ratio m totals = .ok (true, "") ↔
        (meanTotals totals benIds = 0 ∧ meanTotals totals userIds ≤ 0) ∨
        (meanTotals totals benIds ≠ 0 ∧
          meanTotals totals userIds / meanTotals totals benIds ≤
            CORRUPTION_RATIO_HARD_FAIL)) ∧
      (check_corruption_ratio m totals = .ok (true, "") ∨
        check_corruption_ratio m totals =
          .ok (false, R009_INCONVENIENCE_RATIO_FAIL))) := by
  constructor
  · intro hempty
    have he : (userIds.isEmpty || benIds.isEmpty) = true := by
      rcases hempty with h | h <;> simp [h]
    simp [check_corruption_ratio, exBind, hu, hb, he]
  · intro hnu hnb
    have he : (userIds.isEmpty || benIds.isEmpty) = false := by
      simp [hnu, hnb]
    have hval : check_corruption_ratio m totals =
        (if meanTotals totals benIds = 0 then
          (if meanTotals totals userIds > 0 then
            .ok (false, R009_INCONVENIENCE_RATIO_FAIL)
          else .ok (true, ""))
        else if meanTotals totals userIds / meanTotals totals benIds >
            CORRUPTION_RATIO_HARD_FAIL then
          .ok (false, R009_INCONVENIENCE_RATIO_FAIL)
        else .ok (true, "")) := by
      simp only [check_corruption_ratio, exBind, hu, hb, he, qDiv_eq,
        Bool.false_eq_true, if_false]
    rw [hval]
    constructor
    · split_ifs with hib hiu hr <;> simp_all <;> linarith
    · split_ifs <;> simp

/-- Characterization of `_check_symmetry_tolerance` for manifests that reach
it through the pipeline (both role populations non-empty): the stage passes
exactly when both means are zero or the relative deviation
`|i_user - i_ben| / max(i_user, i_ben)` does not exceed the tolerance (so a
deviation of exactly 0.15 passes), failing with
`R010_SYMMETRY_TOLERANCE_FAIL` otherwise.  The deviation is read in ℚ, where
division by zero yields zero. -/
theorem check_symmetry_tolerance_spec (m : PyVal) (totals : List (PyVal × ℚ))
    (userIds benIds : List PyVal)
    (hu : roleIds m "USER" = .ok userIds)
    (hb : roleIds m "BENEFICIARY" = .ok benIds)
    (hnu : userIds ≠ []) (hnb : benIds ≠ []) :
    (check_symmetry_tolerance m totals = .ok (true, "") ↔
      ((meanTotals totals userIds = 0 ∧ meanTotals totals benIds = 0) ∨
       |meanTotals totals userIds - meanTotals totals benIds| /
         max (meanTotals totals userIds) (meanTotals totals benIds) ≤
           SYMMETRY_TOLERANCE_LIMIT)) ∧
    (check_symmetry_tolerance m totals = .ok (true, "") ∨
      check_symmetry_tolerance m totals =
        .ok (false, R010_SYMMETRY_TOLERANCE_FAIL)) := by
  have he : (userIds.isEmpty || benIds.isEmpty) = false := by
    simp [hnu, hnb]
  have hval : check_symmetry_tolerance m totals =
      (if max (meanTotals totals userIds) (meanTotals totals benIds) = 0 then
        .ok (true, "")
      else if |meanTotals totals userIds - meanTotals totals benIds| /
          max (meanTotals totals userIds) (meanTotals totals benIds) >
          SYMMETRY_TOLERANCE_LIMIT then
        .ok (false, R010_SYMMETRY_TOLERANCE_FAIL)
      else .ok (true, "")) := by
    simp only [check_symmetry_tolerance, exBind, hu, hb, he, qDiv_eq,
      qAbs_eq, qSub_eq, Bool.false_eq_true, if_false]
  rw [hval]
  constructor
  · split_ifs with hmx hdev
    · constructor
      · intro _
        right
        rw [hmx, div_zero, SYMMETRY_TOLERANCE_LIMIT_eq]
        norm_num
      · intro _
        rfl
    · constructor
      · intro hcontra
        exact absurd hcontra (by simp)
      · rintro (⟨h1, h2⟩ | hle)
        · exact absurd (by rw [h1, h2]; simp : max (meanTotals totals userIds)
            (meanTotals totals benIds) = 0) hmx
        · exact absurd hdev (not_lt.mpr hle)
    · constructor
      · intro _
        right
        exact not_lt.mp hdev
      · intro _
        rfl
  · split_ifs <;> simp

/-- The per-entry weights loop passes exactly when every key is a string and
every value is a non-negative number. -/
theorem weightsEntriesOk_iff (entries : List (PyVal × PyVal)) :
    weightsEntriesOk entries = true ↔
    ∀ e ∈ entries, isStrVal e.1 = true ∧ isNumVal e.2 = true ∧
      0 ≤ numValD e.2 := by
  simp [weightsEntriesOk, List.all_eq_true, and_assoc]

/-- Characterization of `_verify_inconvenience_weights` under hashable
declared dimensions: the stage passes exactly when the weight dict is
non-empty, every key is a string, every value is numeric and non-negative,
the sum is within EPSILON of 1, and the key set equals the dimension set;
any violation yields `R007_WEIGHTS_INVALID`. -/
theorem verify_inconvenience_weights_spec (m inc model : PyVal)
    (wd : PyDict) (dl : PyList)
    (hinc : getItem m "inconvenience" = .ok inc)
    (hw : getItem inc "weights" = .ok (.pdict wd))
    (hmodel : getItem inc "model" = .ok model)
    (hdims : getItem model "dimensions" = .ok (.plist dl))
    (hhash : dl.toList.all hashable = true) :
    (verify_inconvenience_weights m = .ok (true, "") ↔
      (wd.entries ≠ [] ∧
       (∀ e ∈ wd.entries, isStrVal e.1 = true ∧ isNumVal e.2 = true ∧
         0 ≤ numValD e.2) ∧
       |weightsSum wd.entries - 1| ≤ EPSILON ∧
       pySetEq (wd.entries.map (fun e => e.1)) dl.toList = true)) ∧
    (verify_inconvenience_weights m = .ok (true, "") ∨
     verify_inconvenience_weights m = .ok (false, R007_WEIGHTS_INVALID)) := by
  have hval : verify_inconvenience_weights m =
      (if wd.entries.isEmpty then .ok (false, R007_WEIGHTS_INVALID)
       else if weightsEntriesOk wd.entries = false then
         .ok (false, R007_WEIGHTS_INVALID)
       else if |weightsSum wd.entries - 1| > EPSILON then
         .ok (false, R007_WEIGHTS_INVALID)
       else if pySetEq (wd.entries.map (fun e => e.1)) dl.toList = false then
         .ok (false, R007_WEIGHTS_INVALID)
       else .ok (true, "")) := by
    simp only [verify_inconvenience_weights, exBind, hinc, hw, hmodel, hdims,
      hhash, qAbs_eq, qSub_eq, Bool.not_eq_true', Bool.not_true,
      Bool.true_eq_false, Bool.false_eq_true, if_false]
  rw [hval]
  constructor
  · split_ifs with h1 h2 h3 h4
    · constructor
      · intro hc
        exact absurd hc (by simp)
      · rintro ⟨hne, -, -, -⟩
        exact absurd (List.isEmpty_iff.mp h1) hne
    · constructor
      · intro hc
        exact absurd hc (by simp)
      · rintro ⟨-, hall, -, -⟩
        exact absurd ((weightsEntriesOk_iff wd.entries).mpr hall)
          (by simp [h2])
    · constructor
      · intro hc
        exact absurd hc (by simp)
      · rintro ⟨-, -, hsum, -⟩
        exact absurd h3 (not_lt.mpr hsum)
    · constructor
      · intro hc
        exact absurd hc (by simp)
      · rintro ⟨-, -, -, hset⟩
        exact absurd hset (by simp [h4])
    · constructor
      · intro _
        refine ⟨?_, ?_, ?_, ?_⟩
        · intro hnil
          exact h1 (by simp [hnil])
        · refine (weightsEntriesOk_iff wd.entries).mp ?_
          revert h2
          cases weightsEntriesOk wd.entries <;> simp
        · exact not_lt.mp h3
        · revert h4
          cases pySetEq (wd.entries.map (fun e => e.1)) dl.toList <;> simp
      · intro _
        rfl
  · split_ifs <;> simp

/-- Reading a pipeline outcome back as the validator's result yields
ADMISSIBLE with no code exactly when the outcome is a pass. -/
theorem interpOutcome_admissible_iff (x : Except PyErr StageOutcome) :
    interpOutcome x = .ok ⟨"ADMISSIBLE", none⟩ ↔ x = .ok .pass := by
  rcases x with e | s
  · simp [interpOutcome]
  · rcases s with _ | c <;> simp [interpOutcome]

/-- C1: the claim says `validate` never lets an internal fault escape to the
caller as an uncaught exception, for any input dict.  The code does not
satisfy this: on a manifest whose entity `role` is a list, the membership
test `role not in CANONICAL_ROLES` (line 249 of src/slml_validator.py)
hashes the role and an uncaught TypeError escapes, so `validate` produces no
`(status, code)` result at all. -/
theorem C1_unhandled_typeerror : validate crashRoleManifest = .error .typeErr :=
  rfl

/-- A manifest whose single obligation has an invalid direction but no
`expires_at` is reported as R013_EXPIRY_MISSING, not as the direction code:
the expiry checks run before the direction check. -/
theorem C2_counterexample :
    validate directionNoExpiryManifest =
      .ok ⟨"CORRUPTED", some R013_EXPIRY_MISSING⟩ ∧
    R013_EXPIRY_MISSING ≠ R011_OBLIGATION_DIRECTION_INVALID :=
  ⟨rfl, by decide⟩

/-- C2 (amended): for an obligation whose endpoints resolve in the entity
index to a role pair outside the allowed-direction table, validation fails
with R011_OBLIGATION_DIRECTION_INVALID regardless of the obligation's
remaining fields, PROVIDED its required fields are present and its
`expires_at` is present and parseable — the expiry checks (R013, R012) run
first, so a missing or unparseable expiry masks the direction code. -/
theorem C2_direction_rule (cexp e : Int)
    (idx : List (String × String)) (od : PyDict) (rf rt : String)
    (rest : List PyVal)
    (hid : hasKeyStr od "id" = true) (hfrom : hasKeyStr od "from" = true)
    (hto : hasKeyStr od "to" = true) (htype : hasKeyStr od "type" = true)
    (hexp : pyTruthy (dictGetD od "expires_at") = true)
    (hparse : parse_timestamp (dictGetD od "expires_at") = some e)
    (hrf : indexLookup idx (dictGetD od "from") = .ok rf)
    (hrt : indexLookup idx (dictGetD od "to") = .ok rt)
    (hdir : ALLOWED_OBLIGATION_DIRECTIONS.contains (rf, rt) = false) :
    obligations_loop cexp idx (.pdict od :: rest) =
      .ok (false, R011_OBLIGATION_DIRECTION_INVALID) :=
  obligations_loop_bad_direction cexp e idx od rf rt rest hid hfrom hto htype
    hexp hparse hrf hrt hdir

/-- Witness for C2: a USER-to-DESIGNER obligation with a well-formed expiry
fails with the direction code. -/
theorem C2_direction_rule_witness :
    obligations_loop 0 dirIndex (.pdict dirObligation :: []) =
      .ok (false, R011_OBLIGATION_DIRECTION_INVALID) :=
  C2_direction_rule 0 20290101000000 dirIndex dirObligation "USER" "DESIGNER"
    [] rfl rfl rfl rfl rfl rfl rfl rfl rfl

/-- A manifest whose declared dimension list holds a list makes `set(dims)`
raise TypeError: the validator returns no result for it, so the claim's
universal "for every input manifest, the returned result has status
ADMISSIBLE or CORRUPTED" fails. -/
theorem C3_counterexample : validate crashDimsManifest = .error .typeErr :=
  rfl

/-- C3 (amended): whenever `validate` does return a result, that result is
exactly ADMISSIBLE with no error code, or CORRUPTED with one of the
seventeen enumerated stable codes — never a free-form string.  (The
unconditional claim fails because some inputs raise instead of
returning.) -/
theorem C3_result_shape (m : PyVal) (r : VResult) (h : validate m = .ok r) :
    r = ⟨"ADMISSIBLE", none⟩ ∨
    ∃ c, r = ⟨"CORRUPTED", some c⟩ ∧ c ∈ allReasonCodes :=
  validate_ok_cases m r h

/-- Witness for C3: the baseline manifest's result has the stated shape. -/
theorem C3_result_shape_witness :
    (⟨"ADMISSIBLE", none⟩ : VResult) = ⟨"ADMISSIBLE", none⟩ ∨
    ∃ c, (⟨"ADMISSIBLE", none⟩ : VResult) = ⟨"CORRUPTED", some c⟩ ∧
      c ∈ allReasonCodes :=
  C3_result_shape goodManifest ⟨"ADMISSIBLE", none⟩ rfl

/-- A USER-targeted obligation of type INFORMATIONAL_DISCLOSURE with
`consent_required = True` and an expiry after the consent expiry is reported
as R012_CONSENT_RULES_VIOLATED, not as the coercion code: the consent
binding check runs before the USER-coercion rule. -/
theorem C4_counterexample :
    validate userLateExpiryManifest =
      .ok ⟨"CORRUPTED", some R012_CONSENT_RULES_VIOLATED⟩ ∧
    R012_CONSENT_RULES_VIOLATED ≠ R014_USER_COERCIVE_OBLIGATION :=
  ⟨rfl, by decide⟩

/-- C4 (amended): for an obligation targeting a USER entity whose earlier
checks pass (fields present, expiry present and parseable, direction
allowed, consent binding not violated), the per-obligation check passes
exactly when the type is INFORMATIONAL_DISCLOSURE and `consent_required`
is exactly `False`, and otherwise fails with R014_USER_COERCIVE_OBLIGATION.
The claim's "unless" clause fails as stated: a consent-required obligation
expiring after the consent expiry is rejected earlier with R012, so R014 is
not reached in that case. -/
theorem C4_user_rule (cexp e : Int)
    (idx : List (String × String)) (od : PyDict) (rf : String)
    (hid : hasKeyStr od "id" = true) (hfrom : hasKeyStr od "from" = true)
    (hto : hasKeyStr od "to" = true) (htype : hasKeyStr od "type" = true)
    (hexp : pyTruthy (dictGetD od "expires_at") = true)
    (hparse : parse_timestamp (dictGetD od "expires_at") = some e)
    (hrf : indexLookup idx (dictGetD od "from") = .ok rf)
    (hrt : indexLookup idx (dictGetD od "to") = .ok "USER")
    (hdir : ALLOWED_OBLIGATION_DIRECTIONS.contains (rf, "USER") = true)
    (hbind : (isTrueVal (dictGetD od "consent_required") &&
      decide (e > cexp)) = false) :
    obligation_step cexp idx (.pdict od) =
      .ok (if pyEq (dictGetD od "type") (.pstr "INFORMATIONAL_DISCLOSURE") &&
              isFalseVal (dictGetD od "consent_required") then none
           else some R014_USER_COERCIVE_OBLIGATION) :=
  obligation_step_user_rule cexp e idx od rf hid hfrom hto htype hexp hparse
    hrf hrt hdir hbind

/-- Witness for C4: a USER-targeted MAINTENANCE obligation with
`consent_required = False` fails with the coercion code. -/
theorem C4_user_rule_witness :
    obligation_step 0 userIndex (.pdict coerciveObligation) =
      .ok (some R014_USER_COERCIVE_OBLIGATION) :=
  (C4_user_rule 0 20290101000000 userIndex coerciveObligation "PRODUCT"
    rfl rfl rfl rfl rfl rfl rfl rfl rfl rfl).trans rfl

/-- A manifest with user mean -1 against beneficiary mean 0 passes the ratio
check: with `i_ben == 0` the code fails only on `i_user > 0`, not on
`i_user != 0` as claimed. -/
theorem C5_counterexample :
    compute_inconvenience_totals negativeBurdenManifest =
      .ok (true, "", negTotals) ∧
    roleIds negativeBurdenManifest "USER" = .ok [.pstr "u"] ∧
    roleIds negativeBurdenManifest "BENEFICIARY" = .ok [.pstr "b"] ∧
    meanTotals negTotals [.pstr "b"] = 0 ∧
    meanTotals negTotals [.pstr "u"] ≠ 0 ∧
    check_corruption_ratio negativeBurdenManifest negTotals = .ok (true, "") :=
  ⟨rfl, rfl, rfl, by decide, by decide, rfl⟩

/-- C5 (amended): with an empty user or beneficiary population the ratio
stage fails; otherwise it passes exactly when either the beneficiary mean is
zero and the user mean is NOT POSITIVE (not "zero" as claimed: a negative
user mean against a zero beneficiary mean passes), or the beneficiary mean
is non-zero and the ratio of the means does not exceed 1.5 (so a ratio of
exactly 1.5 passes); in every other case it fails with
R009_INCONVENIENCE_RATIO_FAIL. -/
theorem C5_ratio_rule (m : PyVal) (totals : List (PyVal × ℚ))
    (userIds benIds : List PyVal)
    (hu : roleIds m "USER" = .ok userIds)
    (hb : roleIds m "BENEFICIARY" = .ok benIds) :
    ((userIds = [] ∨ benIds = []) →
      check_corruption_ratio m totals =
        .ok (false, R009_INCONVENIENCE_RATIO_FAIL)) ∧
    (userIds ≠ [] → benIds ≠ [] →
      (check_corruption_ratio m totals = .ok (true, "") ↔
        (meanTotals totals benIds = 0 ∧ meanTotals totals userIds ≤ 0) ∨
        (meanTotals totals benIds ≠ 0 ∧
          meanTotals totals userIds / meanTotals totals benIds ≤
            CORRUPTION_RATIO_HARD_FAIL)) ∧
      (check_corruption_ratio m totals = .ok (true, "") ∨
        check_corruption_ratio m totals =
          .ok (false, R009_INCONVENIENCE_RATIO_FAIL))) :=
  check_corruption_ratio_spec m totals userIds benIds hu hb

/-- Witness for C5: on the negative-burden manifest the ratio stage returns
one of its two outcomes. -/
theorem C5_ratio_rule_witness :
    check_corruption_ratio negativeBurdenManifest negTotals = .ok (true, "") ∨
    check_corruption_ratio negativeBurdenManifest negTotals =
      .ok (false, R009_INCONVENIENCE_RATIO_FAIL) :=
  ((C5_ratio_rule negativeBurdenManifest negTotals [.pstr "u"] [.pstr "b"]
    rfl rfl).2 (by simp) (by simp)).2

/-- A weight mapping keyed by the int 1 meets every condition the claim
lists (non-empty, numeric non-negative values, sum within EPSILON of 1, key
set equal to the declared dimension set) yet the stage fails with
R007_WEIGHTS_INVALID: the code also requires every key to be a string. -/
theorem C6_counterexample :
    verify_inconvenience_weights intKeyWeightsManifest =
      .ok (false, R007_WEIGHTS_INVALID) ∧
    intWeightsDict.entries ≠ [] ∧
    (∀ e ∈ intWeightsDict.entries, isNumVal e.2 = true ∧ 0 ≤ numValD e.2) ∧
    |weightsSum intWeightsDict.entries - 1| ≤ EPSILON ∧
    pySetEq (intWeightsDict.entries.map (fun e => e.1)) [.pint 1] = true := by
  refine ⟨rfl, by simp [intWeightsDict, PyDict.ofList, PyDict.entries],
    by decide, ?_, rfl⟩
  rw [← qSub_eq, ← qAbs_eq]
  decide

/-- C6 (amended): the weights stage passes exactly when the weight mapping
is non-empty, EVERY KEY IS A STRING (a condition the claim omits), every
value is numeric and non-negative, the sum is within 1e-9 of 1, and the key
set equals the declared dimension set; any violation yields
R007_WEIGHTS_INVALID.  The claim's boundary behaviour holds: a sum deviating
from 1 by exactly 1e-9 passes and one deviating by 1.1e-9 fails. -/
theorem C6_weights_rule (m inc model : PyVal) (wd : PyDict) (dl : PyList)
    (hinc : getItem m "inconvenience" = .ok inc)
    (hw : getItem inc "weights" = .ok (.pdict wd))
    (hmodel : getItem inc "model" = .ok model)
    (hdims : getItem model "dimensions" = .ok (.plist dl))
    (hhash : dl.toList.all hashable = true) :
    ((verify_inconvenience_weights m = .ok (true, "") ↔
      (wd.entries ≠ [] ∧
       (∀ e ∈ wd.entries, isStrVal e.1 = true ∧ isNumVal e.2 = true ∧
         0 ≤ numValD e.2) ∧
       |weightsSum wd.entries - 1| ≤ EPSILON ∧
       pySetEq (wd.entries.map (fun e => e.1)) dl.toList = true)) ∧
     (verify_inconvenience_weights m = .ok (true, "") ∨
      verify_inconvenience_weights m = .ok (false, R007_WEIGHTS_INVALID))) ∧
    verify_inconvenience_weights weightsBoundaryPassManifest =
      .ok (true, "") ∧
    verify_inconvenience_weights weightsBoundaryFailManifest =
      .ok (false, R007_WEIGHTS_INVALID) :=
  ⟨verify_inconvenience_weights_spec m inc model wd dl hinc hw hmodel hdims
    hhash, rfl, rfl⟩

/-- Witness for C6: the boundary manifests behave as stated. -/
theorem C6_weights_rule_witness :
    verify_inconvenience_weights weightsBoundaryPassManifest =
      .ok (true, "") ∧
    verify_inconvenience_weights weightsBoundaryFailManifest =
      .ok (false, R007_WEIGHTS_INVALID) :=
  (C6_weights_rule goodManifest goodInconvenience
    (dstr [("dimensions", larr [.pstr "TIME"])])
    (PyDict.ofList [(.pstr "TIME", .pint 1)]) (PyList.ofList [.pstr "TIME"])
    rfl rfl rfl rfl rfl).2

/-- C7: on manifests reaching the symmetry check with both role populations
non-empty, the stage passes exactly when both means are zero or the relative
deviation `|i_user - i_ben| / max(i_user, i_ben)` does not exceed 0.15 (a
deviation of exactly 0.15 passes), failing with R010_SYMMETRY_TOLERANCE_FAIL
otherwise; and there exists a manifest (user mean 1.4, beneficiary mean 1)
that passes the ratio check yet is rejected by the symmetry check. -/
theorem C7_symmetry_rule (m : PyVal) (totals : List (PyVal × ℚ))
    (userIds benIds : List PyVal)
    (hu : roleIds m "USER" = .ok userIds)
    (hb : roleIds m "BENEFICIARY" = .ok benIds)
    (hnu : userIds ≠ []) (hnb : benIds ≠ []) :
    ((check_symmetry_tolerance m totals = .ok (true, "") ↔
      ((meanTotals totals userIds = 0 ∧ meanTotals totals benIds = 0) ∨
       |meanTotals totals userIds - meanTotals totals benIds| /
         max (meanTotals totals userIds) (meanTotals totals benIds) ≤
           SYMMETRY_TOLERANCE_LIMIT)) ∧
     (check_symmetry_tolerance m totals = .ok (true, "") ∨
      check_symmetry_tolerance m totals =
        .ok (false, R010_SYMMETRY_TOLERANCE_FAIL))) ∧
    compute_inconvenience_totals asymBurdenManifest =
      .ok (true, "", asymTotals) ∧
    check_corruption_ratio asymBurdenManifest asymTotals = .ok (true, "") ∧
    validate asymBurdenManifest =
      .ok ⟨"CORRUPTED", some R010_SYMMETRY_TOLERANCE_FAIL⟩ :=
  ⟨check_symmetry_tolerance_spec m totals userIds benIds hu hb hnu hnb,
   rfl, rfl, rfl⟩

/-- Witness for C7: the 1.4-versus-1 manifest passes the ratio stage and is
rejected by the symmetry stage. -/
theorem C7_symmetry_rule_witness :
    compute_inconvenience_totals asymBurdenManifest =
      .ok (true, "", asymTotals) ∧
    check_corruption_ratio asymBurdenManifest asymTotals = .ok (true, "") ∧
    validate asymBurdenManifest =
      .ok ⟨"CORRUPTED", some R010_SYMMETRY_TOLERANCE_FAIL⟩ :=
  (C7_symmetry_rule asymBurdenManifest asymTotals [.pstr "u"] [.pstr "b"]
    rfl rfl (by simp) (by simp)).2

/-- C8: `validate` equals the short-circuiting fold over the fixed ordered
stage list (so the first failing stage's code is reported and later stages
are not consulted); it returns ADMISSIBLE with no code exactly when every
stage passes; and a manifest failing the structural gate is reported with
the structural code no matter what any later (e.g. fairness) stage would
say. -/
theorem C8_pipeline_order (m : PyVal) (c : String)
    (h : strict_parse_manifest m = (false, c)) :
    (∀ m2 : PyVal,
      validate m2 = interpOutcome (firstOutcome (pipelineStages m2))) ∧
    (∀ m2 : PyVal, validate m2 = .ok ⟨"ADMISSIBLE", none⟩ ↔
      ∀ s ∈ pipelineStages m2, s = .ok .pass) ∧
    validate m = .ok ⟨"CORRUPTED", some c⟩ := by
  refine ⟨validate_eq_pipeline, fun m2 => ?_, parse_fail_decides m c h⟩
  rw [validate_eq_pipeline, interpOutcome_admissible_iff, firstOutcome_pass_iff]

/-- Witness for C8: a manifest violating both a structural rule (missing
`obligations` key) and a fairness rule (ratio 2 > 1.5) reports the
structural code. -/
theorem C8_pipeline_order_witness :
    validate structuralAndFairnessManifest =
      .ok ⟨"CORRUPTED", some R000_PARSE_FAILURE⟩ :=
  (C8_pipeline_order structuralAndFairnessManifest R000_PARSE_FAILURE rfl).2.2

/-- C9: when the structural gate and the pre-expiry schema checks pass while
the consent section maps `consent_expires_at` to a falsy value, validation
fails with R018_CONSENT_EXPIRY_MISSING, never PARSE_FAILURE: the check uses
truthiness, so a present-but-falsy expiry is treated exactly like an absent
one. -/
theorem C9_falsy_expiry (m system ownership inc : PyVal)
    (cd : PyDict) (v : PyVal) (hparse : strict_parse_manifest m = (true, ""))
    (hsys : getItem m "system" = .ok system)
    (hown : getItem m "ownership" = .ok ownership)
    (hcons : getItem m "consent" = .ok (.pdict cd))
    (hinc : getItem m "inconvenience" = .ok inc)
    (hpre : schema_sys_own_consent system ownership (.pdict cd) = .ok none)
    (hv : dictFind? cd (.pstr "consent_expires_at") = some v)
    (hfalsy : pyTruthy v = false) :
    validate m = .ok ⟨"CORRUPTED", some R018_CONSENT_EXPIRY_MISSING⟩ :=
  falsy_consent_expiry_r018 m system ownership inc cd v hparse hsys hown
    hcons hinc hpre hv hfalsy

/-- Witness for C9: the baseline manifest with `consent_expires_at` set to
the empty string, the int 0 or False is rejected with the expiry code. -/
theorem C9_falsy_expiry_witness :
    validate (consentExpiryManifest (.pstr "")) =
      .ok ⟨"CORRUPTED", some R018_CONSENT_EXPIRY_MISSING⟩ ∧
    validate (consentExpiryManifest (.pint 0)) =
      .ok ⟨"CORRUPTED", some R018_CONSENT_EXPIRY_MISSING⟩ ∧
    validate (consentExpiryManifest (.pbool false)) =
      .ok ⟨"CORRUPTED", some R018_CONSENT_EXPIRY_MISSING⟩ :=
  ⟨C9_falsy_expiry _ goodSystem goodOwnership goodInconvenience
     (consentDictWith (.pstr "")) (.pstr "") rfl rfl rfl rfl rfl rfl rfl rfl,
   C9_falsy_expiry _ goodSystem goodOwnership goodInconvenience
     (consentDictWith (.pint 0)) (.pint 0) rfl rfl rfl rfl rfl rfl rfl rfl,
   C9_falsy_expiry _ goodSystem goodOwnership goodInconvenience
     (consentDictWith (.pbool false)) (.pbool false)
     rfl rfl rfl rfl rfl rfl rfl rfl⟩

end SLML

namespace HashRelease

/-- Embeds the `FileHash` record of src/tools/hash_release.py. -/
structure FileHash where
  rel_posix_path : String
  sha256_hex : String
  deriving DecidableEq

/-- Characters at which Python `str.splitlines` breaks a line. -/
def isLineBoundary (c : Char) : Bool :=
  ['\n', '\r', '\x0b', '\x0c', '\x1c', '\x1d', '\x1e', '\x85',
   '\u2028', '\u2029'].contains c

/-- Worker for `pySplitlines`, accumulating the current line reversed. -/
def splitlinesAux : List Char → List Char → List (List Char)
  | [], acc => if acc.isEmpty then [] else [acc.reverse]
  | '\r' :: '\n' :: cs, acc => acc.reverse :: splitlinesAux cs []
  | c :: cs, acc =>
    if isLineBoundary c then acc.reverse :: splitlinesAux cs []
    else splitlinesAux cs (c :: acc)

/-- Python `str.splitlines` over characters: breaks at line boundaries,
treats CR LF as a single break, and produces no trailing empty line when the
text ends in a break. -/
def pySplitlines (l : List Char) : List (List Char) := splitlinesAux l []

/-- The whitespace characters stripped by Python `str.strip()`. -/
def pySpaceChars : List Char :=
  [' ', '\t', '\n', '\r', '\x0b', '\x0c', '\x1c', '\x1d', '\x1e', '\x1f',
   '\x85', '\xa0', '\u1680', '\u2000', '\u2001', '\u2002', '\u2003',
   '\u2004', '\u2005', '\u2006', '\u2007', '\u2008', '\u2009', '\u200a',
   '\u2028', '\u2029', '\u202f', '\u205f', '\u3000']

/-- Whether Python `str.strip()` strips this character. -/
def isPySpace (c : Char) : Bool := pySpaceChars.contains c

/-- Python `str.strip()` over characters. -/
def pyStrip (l : List Char) : List Char :=
  ((l.dropWhile isPySpace).reverse.dropWhile isPySpace).reverse

/-- Python `line.split("  ", 1)`: split at the first occurrence of two
consecutive spaces; `none` models the single-element result (no
occurrence). -/
def splitTwoSpace : List Char → Option (List Char × List Char)
  | [] => none
  | ' ' :: ' ' :: rest => some ([], rest)
  | c :: rest =>
    match splitTwoSpace rest with
    | some (a, b) => some (c :: a, b)
    | none => none

/-- The sixteen characters accepted in a sha256 hex digest
(`"0123456789abcdef"`). -/
def hexDigits : List Char :=
  ['a', 'b', 'c', 'd', 'e', 'f',
   '0', '1', '2', '3', '4', '5', '6', '7', '8', '9']

/-- The digest check of `_read_hash_file`: 64 characters, all lowercase
hex. -/
def validHex (s : List Char) : Bool :=
  s.length == 64 && s.all (fun c => hexDigits.contains c)

/-- Does the path start with the POSIX separator? -/
def startsWithSlash : List Char → Bool
  | '/' :: _ => true
  | _ => false

/-- Split a path on `/`, keeping empty segments. -/
def splitOnSlash : List Char → List (List Char)
  | [] => [[]]
  | '/' :: rest => [] :: splitOnSlash rest
  | c :: rest =>
    match splitOnSlash rest with
    | s :: ss => (c :: s) :: ss
    | [] => [[c]]

/-- The components of `PurePosixPath(rel).parts` for a relative path: empty
segments and `.` segments are dropped, `..` segments are kept. -/
def pathParts (s : List Char) : List (List Char) :=
  (splitOnSlash s).filter (fun seg => !seg.isEmpty && seg ≠ ['.'])

/-- The path check of `_read_hash_file`: non-empty, not absolute, and with
no `..` component. -/
def validRelPath (s : List Char) : Bool :=
  !s.isEmpty && !startsWithSlash s && !(pathParts s).contains ['.', '.']

/-- One line of `_read_hash_file`'s loop: strip, skip blank lines, split on
the double space, validate digest and path; `Except.error` models `_die`. -/
def parseHashLine (line : List Char) : Except Unit (Option FileHash) :=
  let s := pyStrip line
  if s.isEmpty then .ok none
  else
    match splitTwoSpace s with
    | none => .error ()
    | some (p0, p1) =>
      let hx := pyStrip p0
      let rp := pyStrip p1
      if !(validHex hx) then .error ()
      else if !(validRelPath rp) then .error ()
      else .ok (some ⟨String.mk rp, String.mk hx⟩)

/-- The line loop of `_read_hash_file`. -/
def readHashLines : List (List Char) → Except Unit (List FileHash)
  | [] => .ok []
  | l :: rest =>
    match parseHashLine l with
    | .error e => .error e
    | .ok none => readHashLines rest
    | .ok (some fh) =>
      match readHashLines rest with
      | .error e => .error e
      | .ok t => .ok (fh :: t)

/-- Embeds `_read_hash_file` at the level of the file's text (the
file-existence check concerns the filesystem and is outside the model). -/
def readHashContent (content : String) : Except Unit (List FileHash) :=
  readHashLines (pySplitlines content.toList)

/-- One line of `_write_hash_file`: digest, two spaces, path. -/
def lineOf (h : FileHash) : List Char :=
  h.sha256_hex.toList ++ [' ', ' '] ++ h.rel_posix_path.toList

/-- Python `"\n".join`. -/
def joinNl : List (List Char) → List Char
  | [] => []
  | [l] => l
  | l :: rest => l ++ '\n' :: joinNl rest

/-- Embeds `_write_hash_file` at the level of the produced text:
`"\n".join(lines) + "\n"` with one line per hash. -/
def writeHashContent (hashes : List FileHash) : String :=
  String.mk (joinNl (hashes.map lineOf) ++ ['\n'])

/-- A fixed well-formed digest used by the concrete instances. -/
def hexA : String :=
  "aaaaaaaaaaaaaaaaaaaaaaaaaaaaaaaaaaaaaaaaaaaaaaaaaaaaaaaaaaaaaaaa"

/-- A second well-formed digest used by the concrete instances. -/
def hexB : String :=
  "0123456789abcdef0123456789abcdef0123456789abcdef0123456789abcdef"

theorem splitlinesAux_cons_nb (c : Char) (cs acc : List Char)
    (hc : isLineBoundary c = false) :
    splitlinesAux (c :: cs) acc = splitlinesAux cs (c :: acc) := by
  have hcr : c ≠ '\r' := by
    intro h
    subst h
    simp [isLineBoundary] at hc
  conv_lhs => unfold splitlinesAux
  split <;> simp_all

theorem splitlinesAux_newline (cs acc : List Char) :
    splitlinesAux ('\n' :: cs) acc = acc.reverse :: splitlinesAux cs [] := by
  conv_lhs => unfold splitlinesAux
  split
  · simp_all
  · simp_all
  · rename_i heq
    injection heq with h1 h2
    subst h1
    subst h2
    simp [isLineBoundary]

theorem splitlinesAux_append (l : List Char) : ∀ (rest acc : List Char),
    l.all (fun c => !isLineBoundary c) = true →
    splitlinesAux (l ++ '\n' :: rest) acc =
      (acc.reverse ++ l) :: splitlinesAux rest [] := by
  induction l with
  | nil =>
    intro rest acc _
    simpa using splitlinesAux_newline rest acc
  | cons c l2 ih =>
    intro rest acc hall
    simp only [List.all_cons, Bool.and_eq_true, Bool.not_eq_true'] at hall
    obtain ⟨hc, hall2⟩ := hall
    rw [List.cons_append, splitlinesAux_cons_nb c _ acc hc,
      ih rest (c :: acc) (by simpa using hall2)]
    simp

theorem pySplitlines_write (lines : List (List Char))
    (h : ∀ l ∈ lines, l.all (fun c => !isLineBoundary c) = true) :
    pySplitlines (joinNl lines ++ ['\n']) =
      if lines.isEmpty then [[]] else lines := by
  induction lines with
  | nil =>
    unfold pySplitlines
    rw [show joinNl [] ++ ['\n'] = '\n' :: ([] : List Char) from rfl,
      splitlinesAux_newline]
    simp [splitlinesAux]
  | cons l rest ih =>
    rcases rest with _ | ⟨l2, rest2⟩
    · simp only [joinNl, List.isEmpty_cons, if_false, Bool.false_eq_true]
      unfold pySplitlines
      rw [show l ++ ['\n'] = l ++ '\n' :: [] from rfl,
        splitlinesAux_append l [] [] (h l (by simp))]
      simp [splitlinesAux]
    · have hj : joinNl (l :: l2 :: rest2) ++ ['\n'] =
        l ++ '\n' :: (joinNl (l2 :: rest2) ++ ['\n']) := by
        simp [joinNl]
      unfold pySplitlines
      rw [hj, splitlinesAux_append l _ [] (h l (by simp))]
      have hrec := ih (fun x hx => h x (by simp [hx]))
      unfold pySplitlines at hrec
      simp only [List.isEmpty_cons, Bool.false_eq_true, if_false] at hrec
      rw [hrec]
      simp

theorem not_space_of_dropWhile_self {d : Char} {t : List Char}
    (h : (d :: t).dropWhile isPySpace = d :: t) : isPySpace d = false := by
  by_cases hd : isPySpace d = true
  · rw [List.dropWhile_cons, if_pos (by simp [hd])] at h
    have hsub : List.Sublist (t.dropWhile isPySpace) t :=
      List.dropWhile_sublist isPySpace
    have hle := hsub.length_le
    have hlen := congrArg List.length h
    simp at hlen
    omega
  · simpa using hd

theorem dropWhile_eq_self_of_head {p : Char → Bool} (a : Char)
    (l : List Char) (ha : p a = false) :
    (a :: l).dropWhile p = a :: l := by
  rw [List.dropWhile_cons]
  simp [ha]

theorem pyStrip_eq_self_of_ends (l : List Char)
    (h1 : l.dropWhile isPySpace = l)
    (h2 : l.reverse.dropWhile isPySpace = l.reverse) : pyStrip l = l := by
  unfold pyStrip
  rw [h1, h2, List.reverse_reverse]

theorem hex_not_space {c : Char} (h : c ∈ hexDigits) : isPySpace c = false := by
  fin_cases h <;> decide

theorem hex_ne_space {c : Char} (h : c ∈ hexDigits) : c ≠ ' ' := by
  fin_cases h <;> decide

theorem hex_not_boundary {c : Char} (h : c ∈ hexDigits) :
    isLineBoundary c = false := by
  fin_cases h <;> decide

theorem splitTwoSpace_append (pre : List Char) :
    ∀ (suf : List Char), (∀ c ∈ pre, c ≠ ' ') →
    splitTwoSpace (pre ++ ' ' :: ' ' :: suf) = some (pre, suf) := by
  induction pre with
  | nil =>
    intro suf _
    rfl
  | cons c pre2 ih =>
    intro suf hne
    have hc : c ≠ ' ' := hne c (by simp)
    rw [List.cons_append]
    unfold splitTwoSpace
    split
    · simp_all
    · simp_all
    · rename_i heq
      injection heq with h1 h2
      subst h1
      subst h2
      rw [ih suf (fun x hx => hne x (by simp [hx]))]

theorem mk_toList (s : String) : String.mk s.toList = s := rfl

theorem parseHashLine_lineOf (fh : FileHash)
    (hhex : validHex fh.sha256_hex.toList = true)
    (hpath : validRelPath fh.rel_posix_path.toList = true)
    (hs1 : fh.rel_posix_path.toList.dropWhile isPySpace =
      fh.rel_posix_path.toList)
    (hs2 : fh.rel_posix_path.toList.reverse.dropWhile isPySpace =
      fh.rel_posix_path.toList.reverse) :
    parseHashLine (lineOf fh) = .ok (some fh) := by
  have hhex2 := hhex
  unfold validHex at hhex2
  simp only [Bool.and_eq_true, beq_iff_eq, List.all_eq_true] at hhex2
  obtain ⟨hlen, hall⟩ := hhex2
  have hallmem : ∀ c ∈ fh.sha256_hex.toList, c ∈ hexDigits := by
    intro c hc
    simpa using hall c hc
  have hpne : fh.rel_posix_path.toList ≠ [] := by
    unfold validRelPath at hpath
    simp only [Bool.and_eq_true, Bool.not_eq_true'] at hpath
    simpa using hpath.1.1
  have hhne : fh.sha256_hex.toList ≠ [] := by
    intro hnil
    rw [hnil] at hlen
    simp at hlen
  obtain ⟨c0, hexRest, hhexshape⟩ :
      ∃ c0 hexRest, fh.sha256_hex.toList = c0 :: hexRest := by
    rcases hx : fh.sha256_hex.toList with _ | ⟨a, b⟩
    · exact absurd hx hhne
    · exact ⟨a, b, rfl⟩
  obtain ⟨d0, pRevRest, hprevshape⟩ :
      ∃ d0 pRevRest, fh.rel_posix_path.toList.reverse = d0 :: pRevRest := by
    rcases hx : fh.rel_posix_path.toList.reverse with _ | ⟨a, b⟩
    · exact absurd (by simpa using congrArg List.reverse hx) hpne
    · exact ⟨a, b, rfl⟩
  have hc0 : c0 ∈ hexDigits := hallmem c0 (by rw [hhexshape]; simp)
  have hd0 : isPySpace d0 = false := by
    rw [hprevshape] at hs2
    exact not_space_of_dropWhile_self hs2
  have hstripline : pyStrip (lineOf fh) = lineOf fh := by
    apply pyStrip_eq_self_of_ends
    · unfold lineOf
      rw [hhexshape, List.cons_append]
      exact dropWhile_eq_self_of_head c0 _ (hex_not_space hc0)
    · unfold lineOf
      rw [List.reverse_append, List.reverse_append, hprevshape]
      simp only [List.reverse_cons, List.reverse_nil, List.nil_append,
        List.cons_append, List.append_assoc]
      exact dropWhile_eq_self_of_head d0 _ hd0
  have hsplit : splitTwoSpace (lineOf fh) =
      some (fh.sha256_hex.toList, fh.rel_posix_path.toList) := by
    unfold lineOf
    rw [show fh.sha256_hex.toList ++ [' ', ' '] ++ fh.rel_posix_path.toList =
      fh.sha256_hex.toList ++ ' ' :: ' ' :: fh.rel_posix_path.toList by simp]
    exact splitTwoSpace_append _ _ (fun c hc => hex_ne_space (hallmem c hc))
  have hstriphex : pyStrip fh.sha256_hex.toList = fh.sha256_hex.toList := by
    apply pyStrip_eq_self_of_ends
    · rw [hhexshape]
      exact dropWhile_eq_self_of_head c0 _ (hex_not_space hc0)
    · obtain ⟨e0, hexRevRest, hrs⟩ :
          ∃ e0 hexRevRest, fh.sha256_hex.toList.reverse = e0 :: hexRevRest := by
        rcases hx : fh.sha256_hex.toList.reverse with _ | ⟨a, b⟩
        · exact absurd (by simpa using congrArg List.reverse hx) hhne
        · exact ⟨a, b, rfl⟩
      have he0 : e0 ∈ hexDigits := by
        apply hallmem
        have : e0 ∈ fh.sha256_hex.toList.reverse := by rw [hrs]; simp
        simpa using this
      rw [hrs]
      exact dropWhile_eq_self_of_head e0 _ (hex_not_space he0)
  have hstrippath : pyStrip fh.rel_posix_path.toList =
      fh.rel_posix_path.toList := pyStrip_eq_self_of_ends _ hs1 hs2
  have hlne : (lineOf fh).isEmpty = false := by
    unfold lineOf
    rw [hhexshape]
    simp
  unfold parseHashLine
  rw [hstripline]
  simp only [hlne, Bool.false_eq_true, if_false, hsplit, hstriphex,
    hstrippath, hhex, hpath, Bool.not_true, Bool.false_eq_true, if_false]
  rw [mk_toList, mk_toList]

theorem readHashLines_map (hs : List FileHash)
    (H : ∀ fh ∈ hs, validHex fh.sha256_hex.toList = true ∧
      validRelPath fh.rel_posix_path.toList = true ∧
      fh.rel_posix_path.toList.dropWhile isPySpace =
        fh.rel_posix_path.toList ∧
      fh.rel_posix_path.toList.reverse.dropWhile isPySpace =
        fh.rel_posix_path.toList.reverse) :
    readHashLines (hs.map lineOf) = .ok hs := by
  induction hs with
  | nil => rfl
  | cons fh rest ih =>
    obtain ⟨h1, h2, h3, h4⟩ := H fh (by simp)
    simp only [List.map_cons]
    unfold readHashLines
    rw [parseHashLine_lineOf fh h1 h2 h3 h4,
      ih (fun x hx => H x (by simp [hx]))]

/-- Round trip of the hash manifest format: reading back the text written by
`_write_hash_file` recovers exactly the original list, in order, provided
every digest is 64 lowercase hex characters and every path is non-empty, not
absolute, free of `..` components and of line-break characters, and carries
no leading or trailing whitespace. -/
theorem write_read_roundtrip (hs : List FileHash)
    (H : ∀ fh ∈ hs, validHex fh.sha256_hex.toList = true ∧
      validRelPath fh.rel_posix_path.toList = true ∧
      fh.rel_posix_path.toList.all (fun c => !isLineBoundary c) = true ∧
      fh.rel_posix_path.toList.dropWhile isPySpace =
        fh.rel_posix_path.toList ∧
      fh.rel_posix_path.toList.reverse.dropWhile isPySpace =
        fh.rel_posix_path.toList.reverse) :
    readHashContent (writeHashContent hs) = .ok hs := by
  unfold readHashContent writeHashContent
  rw [show (String.mk (joinNl (hs.map lineOf) ++ ['\n'])).toList =
    joinNl (hs.map lineOf) ++ ['\n'] from rfl]
  have hlines : ∀ l ∈ hs.map lineOf,
      l.all (fun c => !isLineBoundary c) = true := by
    intro l hl
    obtain ⟨fh, hfh, rfl⟩ := List.mem_map.mp hl
    obtain ⟨h1, -, h3, -, -⟩ := H fh hfh
    unfold lineOf
    simp only [List.all_append, Bool.and_eq_true]
    refine ⟨⟨?_, by decide⟩, h3⟩
    unfold validHex at h1
    simp only [Bool.and_eq_true, List.all_eq_true] at h1 ⊢
    intro c hc
    have : c ∈ hexDigits := by simpa using h1.2 c hc
    simp [hex_not_boundary this]
  rw [pySplitlines_write (hs.map lineOf) hlines]
  rcases hs with _ | ⟨fh, rest⟩
  · rfl
  · simp only [List.map_cons, List.isEmpty_cons, Bool.false_eq_true, if_false]
    exact readHashLines_map (fh :: rest)
      (fun x hx => ⟨(H x hx).1, (H x hx).2.1, (H x hx).2.2.2.1,
        (H x hx).2.2.2.2⟩)

/-- The pair with path " a" has a 64-lowercase-hex digest and a non-empty,
relative, `..`-free path, yet reading back the written file yields the
stripped path "a": the claimed unconditional round trip fails on paths with
leading or trailing whitespace. -/
theorem C10_counterexample :
    validHex hexA.toList = true ∧
    validRelPath (" a" : String).toList = true ∧
    readHashContent (writeHashContent [⟨" a", hexA⟩]) = .ok [⟨"a", hexA⟩] ∧
    [(⟨" a", hexA⟩ : FileHash)] ≠ [⟨"a", hexA⟩] :=
  ⟨rfl, rfl, rfl, by decide⟩

/-- C10 (amended): reading the hash file written by `_write_hash_file` with
`_read_hash_file` returns exactly the original list, in order, provided
every digest is 64 lowercase hex characters and every path is non-empty,
not absolute, free of `..` components AND — conditions the claim omits —
free of line-break characters and carrying no leading or trailing
whitespace (`splitlines` and `strip` otherwise alter the lines). -/
theorem C10_roundtrip (hs : List FileHash)
    (H : ∀ fh ∈ hs, validHex fh.sha256_hex.toList = true ∧
      validRelPath fh.rel_posix_path.toList = true ∧
      fh.rel_posix_path.toList.all (fun c => !isLineBoundary c) = true ∧
      fh.rel_posix_path.toList.dropWhile isPySpace =
        fh.rel_posix_path.toList ∧
      fh.rel_posix_path.toList.reverse.dropWhile isPySpace =
        fh.rel_posix_path.toList.reverse) :
    readHashContent (writeHashContent hs) = .ok hs :=
  write_read_roundtrip hs H

/-- Witness for C10: a two-entry manifest with well-formed digests and
paths round-trips unchanged. -/
theorem C10_roundtrip_witness :
    readHashContent (writeHashContent
      [⟨"docs/spec.md", hexA⟩, ⟨"b.txt", hexB⟩]) =
      .ok [⟨"docs/spec.md", hexA⟩, ⟨"b.txt", hexB⟩] := by
  refine C10_roundtrip _ ?_
  intro fh hfh
  fin_cases hfh <;> exact ⟨rfl, rfl, rfl, rfl, rfl⟩

end HashRelease
